import Mathlib

/-!
Verification development for the dronecot repository: a shallow embedding of
the Open Drone ID payload decoder (`dronecot/open_drone_id.py`), the MQTT
worker's framing and sensor-position cache (`dronecot/classes.py`), and the
CoT translator functions (`dronecot/functions.py`), together with theorems
about their behaviour.

Python byte strings are embedded as `List Nat`; Python slicing never fails
while indexing and `struct.unpack` may raise, so fallible steps live in
`Except PyErr`.  Python floats are embedded as `EFloat` (IEEE-754 values
read exactly into rationals, plus NaN and the infinities).  Python dicts
are embedded as insertion-ordered association lists with the `|` merge
operator's right-bias semantics.
-/

/-- Python exception classes that the embedded code can raise.
`truncated` stands for `IndexError` (byte index out of range) and
`struct.error` (slice shorter than the struct format requires) — the
truncation failure mode; `unicode` for `UnicodeDecodeError`;
`nameErr` for `NameError` (reading a global that was never assigned);
`typeErr` for `TypeError`/`AttributeError`; `valueErr` for `ValueError`. -/
inductive PyErr where
  | truncated
  | unicode
  | nameErr
  | typeErr
  | valueErr
deriving DecidableEq

/-- A Python `bytes` object: a list of byte values. -/
abbrev Bytes := List Nat

/-- Python slice `p[a:b]` with `0 ≤ a ≤ b`: never raises, clamps to length. -/
def pySlice (p : Bytes) (a b : Nat) : Bytes :=
  (p.take b).drop a

/-- Python index `p[i]` for `i ≥ 0`: raises `IndexError` when out of range. -/
def pyIndex (p : Bytes) (i : Nat) : Except PyErr Nat :=
  if h : i < p.length then .ok (p.get ⟨i, h⟩) else .error .truncated

/-- Little-endian accumulation of a byte list into a natural number. -/
def leNat : Bytes → Nat
  | [] => 0
  | b :: bs => b % 256 + 256 * leNat bs

/-- `struct.unpack` of a single unsigned little-endian integer of `n` bytes
("B" = 1, "H" = 2, "I" = 4): raises `struct.error` unless the buffer has
exactly `n` bytes. -/
def unpack_u (n : Nat) (bs : Bytes) : Except PyErr Nat :=
  if bs.length = n then .ok (leNat bs) else .error .truncated

/-- A Python float: NaN, the two infinities, or an exactly-represented
finite value. -/
inductive EFloat where
  | nan
  | inf
  | ninf
  | finite (q : ℚ)
deriving DecidableEq

/-- Decode an IEEE-754 binary value with `mantBits` mantissa bits and
`expBits` exponent bits from its bit pattern. -/
def decodeIEEE (mantBits expBits : Nat) (bits : Nat) : EFloat :=
  let m := bits % 2 ^ mantBits
  let e := bits / 2 ^ mantBits % 2 ^ expBits
  let s := bits / 2 ^ (mantBits + expBits) % 2
  let bias := 2 ^ (expBits - 1) - 1
  if e = 2 ^ expBits - 1 then
    if m = 0 then (if s = 1 then .ninf else .inf) else .nan
  else
    let mag : ℚ :=
      if e = 0 then (m : ℚ) / 2 ^ (mantBits + bias - 1)
      else ((2 ^ mantBits + m : ℕ) : ℚ) * 2 ^ e / 2 ^ (mantBits + bias)
    .finite (if s = 1 then -mag else mag)

/-- `struct.unpack("d", bs)`: a little-endian IEEE-754 double. -/
def unpack_f64 (bs : Bytes) : Except PyErr EFloat :=
  if bs.length = 8 then .ok (decodeIEEE 52 11 (leNat bs)) else .error .truncated

/-- `struct.unpack("f", bs)`: a little-endian IEEE-754 single. -/
def unpack_f32 (bs : Bytes) : Except PyErr EFloat :=
  if bs.length = 4 then .ok (decodeIEEE 23 8 (leNat bs)) else .error .truncated

/-- Python `x > c` for a float `x` and an exact constant `c`
(NaN comparisons are false). -/
def EFloat.gtq : EFloat → ℚ → Bool
  | .nan, _ => false
  | .inf, _ => true
  | .ninf, _ => false
  | .finite q, c => decide (c < q)

/-- Python `x < c` for a float `x` and an exact constant `c`. -/
def EFloat.ltq : EFloat → ℚ → Bool
  | .nan, _ => false
  | .inf, _ => false
  | .ninf, _ => true
  | .finite q, c => decide (q < c)

/-- Python `x <= c` for a float `x` and an exact constant `c`. -/
def EFloat.leq : EFloat → ℚ → Bool
  | .nan, _ => false
  | .inf, _ => false
  | .ninf, _ => true
  | .finite q, c => decide (q ≤ c)

/-- Python `x == c` for a float `x` and an exact constant `c`
(NaN is equal to nothing; `-0.0 == 0.0` holds because both decode to
`finite 0`). -/
def EFloat.eqq : EFloat → ℚ → Bool
  | .nan, _ => false
  | .inf, _ => false
  | .ninf, _ => false
  | .finite q, c => decide (q = c)

/-- Python `int(x)` on a finite float value: truncation toward zero. -/
def pyTrunc (q : ℚ) : Int :=
  q.num.tdiv (q.den : Int)

/-- Python `x % m` for floats with a positive modulus: floor-based. -/
def pyFmod (q m : ℚ) : ℚ :=
  q - m * (⌊q / m⌋ : ℚ)

/-- A Python value stored in a decoded record. -/
inductive PyVal where
  | int (n : Int)
  | float (x : EFloat)
  | str (s : String)
  /-- a one-element tuple holding a string, e.g. `(payload[...].hex(),)` -/
  | tupStr (s : String)
  /-- the three-integer tuple stored for the Location `TimeStamp` -/
  | tupTime (a b c : Int)
  /-- a nested dict value -/
  | dict (entries : List (String × PyVal))
  | none

/-- A Python dict: an insertion-ordered association list. -/
abbrev Dict := List (String × PyVal)

/-- Python dict merge `d1 | d2`: keys of `d1` in order with `d2`'s values
where present, followed by keys only in `d2`. -/
def dmerge (d1 d2 : Dict) : Dict :=
  d1.map (fun kv => (kv.1, (d2.lookup kv.1).getD kv.2)) ++
    d2.filter (fun kv => (d1.lookup kv.1).isNone)

/-- Hex digit character for a value below 16. -/
def hexDigit (n : Nat) : Char :=
  if n < 10 then Char.ofNat (48 + n) else Char.ofNat (87 + n % 16)

/-- Python `bytes.hex()`: two lowercase hex digits per byte. -/
def bytesHex (bs : Bytes) : String :=
  String.mk (bs.foldr (fun b acc => hexDigit (b / 16 % 16) :: hexDigit (b % 16) :: acc) [])

/-- Python `bytes.decode("ascii")`: fails on any byte above 127. -/
def decodeAscii (bs : Bytes) : Except PyErr Bytes :=
  if bs.all (· < 128) then .ok bs else .error .unicode

/-- Python `str.rstrip("\x00")` applied at byte level: drop trailing NULs. -/
def rstripNul (bs : Bytes) : Bytes :=
  (bs.reverse.dropWhile (· = 0)).reverse

/-- Turn (ASCII-checked) bytes into a string. -/
def asciiStr (bs : Bytes) : String :=
  String.mk (bs.map Char.ofNat)

/-- Models the external `datetime.datetime.fromtimestamp(secs, pytz.UTC)
.strftime("%Y-%m-%d %H:%M %Z")` library call opaquely: an injective
rendering of the absolute epoch seconds.  No claim depends on the
formatted text, only on the presence of the key it is stored under. -/
def pyUTCString (secs : Int) : String :=
  "UTC+" ++ toString secs

/-! ## `dronecot/open_drone_id.py` -/

/-- `ODIDValidBlocks`: the validity flags object.  In the source the
`AuthValid` list is a 16-element class attribute; a fresh instance starts
with every flag zero. -/
structure ODIDValidBlocks where
  BasicID0_valid : Nat
  BasicID1_valid : Nat
  LocationValid : Nat
  SelfIDValid : Nat
  SystemValid : Nat
  OperatorIDValid : Nat
  AuthValid : List Nat
deriving DecidableEq

/-- `ODIDValidBlocks()`: all flags zero, `AuthValid` of length 16. -/
def ODIDValidBlocks.init : ODIDValidBlocks :=
  ⟨0, 0, 0, 0, 0, 0, List.replicate 16 0⟩

/-- `decode_valid_blocks(payload, valid_blocks)`: reads the validity flag
bytes at fixed offsets 892–913.  The source assigns `AuthValid[0]`
through `AuthValid[13]` from bytes 895–908; the assignments for
`AuthValid[14]` and `AuthValid[15]` (bytes 909, 910) are commented out,
so those two entries keep the values they had in `valid_blocks`. -/
def decode_valid_blocks (payload : Bytes) (vb : ODIDValidBlocks) :
    Except PyErr ODIDValidBlocks := do
  let b0 ← pyIndex payload 892
  let b1 ← pyIndex payload 893
  let lv ← pyIndex payload 894
  let a0 ← pyIndex payload 895
  let a1 ← pyIndex payload 896
  let a2 ← pyIndex payload 897
  let a3 ← pyIndex payload 898
  let a4 ← pyIndex payload 899
  let a5 ← pyIndex payload 900
  let a6 ← pyIndex payload 901
  let a7 ← pyIndex payload 902
  let a8 ← pyIndex payload 903
  let a9 ← pyIndex payload 904
  let a10 ← pyIndex payload 905
  let a11 ← pyIndex payload 906
  let a12 ← pyIndex payload 907
  let a13 ← pyIndex payload 908
  let sv ← pyIndex payload 911
  let sy ← pyIndex payload 912
  let ov ← pyIndex payload 913
  let auth := ((((((((((((((vb.AuthValid.set 0 a0).set 1 a1).set 2 a2).set 3
      a3).set 4 a4).set 5 a5).set 6 a6).set 7 a7).set 8 a8).set 9 a9).set 10
      a10).set 11 a11).set 12 a12).set 13 a13)
  pure ⟨b0, b1, lv, sv, sy, ov, auth⟩

/-- `parse_basicID0(payload)`: BasicID slot 0 at offset 0.  When
`IDType ∉ {1, 2}` the `BasicID` value is a one-element tuple holding the
hex string (note the trailing comma in the source). -/
def parse_basicID0 (payload : Bytes) : Except PyErr Dict := do
  let UAType ← unpack_u 4 (pySlice payload 0 4)
  let IDType ← unpack_u 4 (pySlice payload 4 8)
  if IDType = 1 ∨ IDType = 2 then do
    let idBytes ← decodeAscii (pySlice payload 8 29)
    pure [("UAType", .int UAType), ("IDType", .int IDType),
          ("BasicID", .str (asciiStr (rstripNul idBytes)))]
  else
    pure [("UAType", .int UAType), ("IDType", .int IDType),
          ("BasicID", .tupStr (bytesHex (pySlice payload 8 29)))]

/-- `parse_basicID1(payload)`: BasicID slot 1 at offset 32.  Unlike slot 0,
the hex fallback is stored as a plain string (no trailing comma). -/
def parse_basicID1 (payload : Bytes) : Except PyErr Dict := do
  let UAType ← unpack_u 4 (pySlice payload 32 36)
  let IDType ← unpack_u 4 (pySlice payload 36 40)
  if IDType = 1 ∨ IDType = 2 then do
    let idBytes ← decodeAscii (pySlice payload 40 61)
    pure [("UAType", .int UAType), ("IDType", .int IDType),
          ("BasicID", .str (asciiStr (rstripNul idBytes)))]
  else
    pure [("UAType", .int UAType), ("IDType", .int IDType),
          ("BasicID", .str (bytesHex (pySlice payload 40 61)))]

/-- `parse_Location(payload)`: Location block starting at byte 64.
Out-of-range floats (and zero latitude/longitude) are replaced with NaN;
the `TimeStamp` key is only stored for a positive in-range timestamp
(the source's `TimeStamp != float("NaN")` conjunct is always true in
Python and is therefore omitted). -/
def parse_Location (payload : Bytes) : Except PyErr Dict := do
  let Status ← unpack_u 4 (pySlice payload 64 68)
  let Direction0 ← unpack_f32 (pySlice payload 68 72)
  let Direction := if Direction0.gtq 360 || Direction0.ltq 0 then .nan else Direction0
  let SpeedHorizontal0 ← unpack_f32 (pySlice payload 72 76)
  let SpeedHorizontal :=
    if SpeedHorizontal0.gtq (1017 / 4) || SpeedHorizontal0.ltq 0 then .nan
    else SpeedHorizontal0
  let SpeedVertical0 ← unpack_f32 (pySlice payload 76 80)
  let SpeedVertical :=
    if SpeedVertical0.gtq 62 || SpeedVertical0.ltq (-62) then .nan
    else SpeedVertical0
  let Latitude0 ← unpack_f64 (pySlice payload 80 88)
  let Latitude :=
    if Latitude0.eqq 0 || Latitude0.gtq 90 || Latitude0.ltq (-90) then .nan
    else Latitude0
  let Longitude0 ← unpack_f64 (pySlice payload 88 96)
  let Longitude :=
    if Longitude0.eqq 0 || Longitude0.gtq 180 || Longitude0.ltq (-180) then .nan
    else Longitude0
  let AltitudeBaro0 ← unpack_f32 (pySlice payload 96 100)
  let AltitudeBaro :=
    if AltitudeBaro0.leq (-1000) || AltitudeBaro0.gtq (63535 / 2) then .nan
    else AltitudeBaro0
  let AltitudeGeo0 ← unpack_f32 (pySlice payload 100 104)
  let AltitudeGeo :=
    if AltitudeGeo0.leq (-1000) || AltitudeGeo0.gtq (63535 / 2) then .nan
    else AltitudeGeo0
  let HeightType ← unpack_u 4 (pySlice payload 104 108)
  let Height0 ← unpack_f32 (pySlice payload 108 112)
  let Height :=
    if Height0.leq (-1000) || Height0.gtq (63535 / 2) then .nan else Height0
  let HorizAccuracy ← unpack_u 4 (pySlice payload 112 116)
  let VertAccuracy ← unpack_u 4 (pySlice payload 116 120)
  let BaroAccuracy ← unpack_u 4 (pySlice payload 120 124)
  let SpeedAccuracy ← unpack_u 4 (pySlice payload 124 128)
  let TSAccuracy ← unpack_u 4 (pySlice payload 128 132)
  let TimeStamp ← unpack_f32 (pySlice payload 132 136)
  let pl : Dict :=
    [("Status", .int Status), ("Direction", .float Direction),
     ("SpeedHorizontal", .float SpeedHorizontal),
     ("SpeedVertical", .float SpeedVertical),
     ("Latitude", .float Latitude), ("Longitude", .float Longitude),
     ("AltitudeBaro", .float AltitudeBaro), ("AltitudeGeo", .float AltitudeGeo),
     ("HeightType", .int HeightType), ("Height", .float Height),
     ("HorizAccuracy", .int HorizAccuracy), ("VertAccuracy", .int VertAccuracy),
     ("BaroAccuracy", .int BaroAccuracy), ("SpeedAccuracy", .int SpeedAccuracy),
     ("TSAccuracy", .int TSAccuracy)]
  match TimeStamp with
  | .finite q =>
      if TimeStamp.gtq 0 && TimeStamp.leq 3600 then
        pure (pl ++ [("TimeStamp",
          .tupTime (pyTrunc (q / 60)) (pyTrunc (pyFmod q 60))
            (pyTrunc (100 * (q - (pyTrunc q : ℚ)))))])
      else pure pl
  | _ => pure pl

/-- `parse_SelfID(payload)`: SelfID block at byte 776. -/
def parse_SelfID (payload : Bytes) : Except PyErr Dict := do
  let DescType ← unpack_u 4 (pySlice payload 776 780)
  let Desc ← decodeAscii (pySlice payload 780 803)
  pure [("DescType", .int DescType), ("Desc", .str (asciiStr (rstripNul Desc)))]

/-- `parse_System(payload)`: System block at byte 808.  Operator
latitude/longitude take the same NaN sentinel policy as the Location
block; `Timestamp` (stored as a one-element tuple of the formatted UTC
string) is only present for a nonzero raw value. -/
def parse_System (payload : Bytes) : Except PyErr Dict := do
  let OperatorLocationType ← unpack_u 4 (pySlice payload 808 812)
  let ClassificationType ← unpack_u 4 (pySlice payload 812 816)
  let OperatorLatitude0 ← unpack_f64 (pySlice payload 816 824)
  let OperatorLongitude0 ← unpack_f64 (pySlice payload 824 832)
  let OperatorLatitude :=
    if OperatorLatitude0.eqq 0 || OperatorLatitude0.gtq 90 ||
        OperatorLatitude0.ltq (-90) then .nan
    else OperatorLatitude0
  let OperatorLongitude :=
    if OperatorLongitude0.eqq 0 || OperatorLongitude0.gtq 180 ||
        OperatorLongitude0.ltq (-180) then .nan
    else OperatorLongitude0
  let AreaCount ← unpack_u 2 (pySlice payload 832 834)
  let AreaRadius ← unpack_u 2 (pySlice payload 834 836)
  let AreaCeiling0 ← unpack_f32 (pySlice payload 836 840)
  let AreaCeiling := if AreaCeiling0.eqq (-1000) then .nan else AreaCeiling0
  let AreaFloor0 ← unpack_f32 (pySlice payload 840 844)
  let AreaFloor := if AreaFloor0.eqq (-1000) then .nan else AreaFloor0
  let CategoryEU ← unpack_u 4 (pySlice payload 844 848)
  let ClassEU ← unpack_u 4 (pySlice payload 848 852)
  let OperatorAltitudeGeo0 ← unpack_f32 (pySlice payload 852 856)
  let OperatorAltitudeGeo :=
    if OperatorAltitudeGeo0.leq (-1000) || OperatorAltitudeGeo0.gtq (63535 / 2)
    then .nan else OperatorAltitudeGeo0
  let Timestamp ← unpack_u 4 (pySlice payload 856 860)
  let pl : Dict :=
    [("OperatorLocationType", .int OperatorLocationType),
     ("ClassificationType", .int ClassificationType),
     ("OperatorLatitude", .float OperatorLatitude),
     ("OperatorLongitude", .float OperatorLongitude),
     ("AreaCount", .int AreaCount), ("AreaRadius", .int AreaRadius),
     ("AreaCeiling", .float AreaCeiling), ("AreaFloor", .float AreaFloor),
     ("CategoryEU", .int CategoryEU), ("ClassEU", .int ClassEU),
     ("OperatorAltitudeGeo", .float OperatorAltitudeGeo)]
  let pl :=
    if Timestamp ≠ 0 then
      pl ++ [("Timestamp", .tupStr (pyUTCString (Timestamp + 1546300800)))]
    else pl
  pure (pl ++ [("TimestampRaw", .int Timestamp)])

/-- `parse_OperatorID(payload)`: OperatorID block at byte 864. -/
def parse_OperatorID (payload : Bytes) : Except PyErr Dict := do
  let OperatorIdType ← unpack_u 4 (pySlice payload 864 868)
  let opid ← decodeAscii (pySlice payload 868 888)
  pure [("OperatorIdType", .int OperatorIdType),
        ("OperatorID", .str (asciiStr (rstripNul opid)))]

/-- The module-global authentication-assembly state: the source stores
`LastPageIndex` and `Length` in Python process globals, so they persist
across calls; `Option.none` models a global that was never assigned
(reading it raises `NameError`). -/
structure AuthState where
  lastPageIndex : Option Nat
  length : Option Nat
deriving DecidableEq

/-- The fresh interpreter state: neither global assigned yet. -/
def AuthState.unset : AuthState := ⟨Option.none, Option.none⟩

/-- The length of the final authentication page's data slice:
`(Length - 17) % 23` with Python's nonnegative `%` on ints. -/
def authFinalSliceLen (len : Nat) : Nat :=
  (((len : Int) - 17).emod 23).toNat

/-- The final page's `AuthData` slice
`payload[start+16 : start+16 + (Length - 17) % 23]` (computed by the
source but never stored in the result dict). -/
def authFinalSlice (payload : Bytes) (page len : Nat) : Bytes :=
  pySlice payload (136 + 40 * page + 16) (136 + 40 * page + 16 + authFinalSliceLen len)

/-- `parse_AuthPage(payload, page)`: one authentication page at offset
`136 + 40 * page`.  Page 0 assigns the globals `LastPageIndex` and
`Length` (each immediately after its own unpack, so a later failure can
leave one assigned) and stores a 17-byte `AuthData`.  A page `p > 0`
reads `LastPageIndex` from the global state (NameError when unset); the
final page's truncated `AuthData` slice is computed but not stored,
while an intermediate page stores the full 23 bytes. -/
def parse_AuthPage (payload : Bytes) (page : Nat) (s : AuthState) :
    Except PyErr Dict × AuthState :=
  let start := 136 + 40 * page
  match unpack_u 1 (pySlice payload start (start + 1)) with
  | .error e => (.error e, s)
  | .ok DataPage =>
  match unpack_u 1 (pySlice payload (start + 4) (start + 5)) with
  | .error e => (.error e, s)
  | .ok AuthType =>
  let pl : Dict := [("DataPage", .int DataPage), ("AuthType", .int AuthType)]
  if page = 0 then
    match unpack_u 1 (pySlice payload (start + 8) (start + 9)) with
    | .error e => (.error e, s)
    | .ok lpi =>
    let s := { s with lastPageIndex := some lpi }
    match unpack_u 1 (pySlice payload (start + 9) (start + 10)) with
    | .error e => (.error e, s)
    | .ok len =>
    let s := { s with length := some len }
    match unpack_u 4 (pySlice payload (start + 12) (start + 16)) with
    | .error e => (.error e, s)
    | .ok Timestamp =>
    let pl := pl ++ [("LastPageIndex", .int lpi), ("Length", .int len)]
    let pl :=
      if Timestamp ≠ 0 then
        pl ++ [("Timestamp", .str (pyUTCString (Timestamp + 1546300800)))]
      else pl
    (.ok (pl ++ [("AuthData", .str (bytesHex (pySlice payload (start + 16) (start + 16 + 17))))]), s)
  else
    match s.lastPageIndex with
    | Option.none => (.error .nameErr, s)
    | some lpi =>
      if page = lpi then
        match s.length with
        | Option.none => (.error .nameErr, s)
        | some len =>
          -- the truncated slice is computed but not stored in the result
          let _AuthData := authFinalSlice payload page len
          (.ok pl, s)
      else
        (.ok (pl ++ [("AuthData", .str (bytesHex (pySlice payload (start + 16) (start + 16 + 23))))]), s)

/-- The `for x in range(16)` loop of `parse_payload` over the
authentication pages, threading the global assembly state and aborting
on the first raised exception (any state already assigned survives). -/
def authLoop (payload : Bytes) (av : List Nat) :
    List Nat → Dict → AuthState → Except PyErr Dict × AuthState
  | [], pl, s => (.ok pl, s)
  | x :: rest, pl, s =>
    if av.getD x 0 = 1 then
      match parse_AuthPage payload x s with
      | (.error e, s1) => (.error e, s1)
      | (.ok d, s1) => authLoop payload av rest (dmerge pl d) s1
    else authLoop payload av rest pl s

/-- `parse_payload(payload, valid_blocks)`: merge the blocks whose flag
equals exactly 1, in source order, then the authentication pages 0–15.
The global assembly state is passed in and the (possibly updated) state
is returned alongside the result; an exception propagates but state
already assigned is kept, as with Python globals. -/
def parse_payload (payload : Bytes) (vb : ODIDValidBlocks) (s : AuthState) :
    Except PyErr Dict × AuthState :=
  let fixed : Except PyErr Dict := do
    let pl : Dict := []
    let pl ← if vb.BasicID0_valid = 1 then
        do pure (dmerge pl (← parse_basicID0 payload)) else pure pl
    let pl ← if vb.BasicID1_valid = 1 then
        do pure (dmerge pl (← parse_basicID1 payload)) else pure pl
    let pl ← if vb.LocationValid = 1 then
        do pure (dmerge pl (← parse_Location payload)) else pure pl
    let pl ← if vb.SelfIDValid = 1 then
        do pure (dmerge pl (← parse_SelfID payload)) else pure pl
    let pl ← if vb.SystemValid = 1 then
        do pure (dmerge pl (← parse_System payload)) else pure pl
    let pl ← if vb.OperatorIDValid = 1 then
        do pure (dmerge pl (← parse_OperatorID payload)) else pure pl
    pure pl
  match fixed with
  | .error e => (.error e, s)
  | .ok pl => authLoop payload vb.AuthValid (List.range 16) pl s

/-- The decode entry point used by `MQTTWorker.handle_sensor_data`:
`decode_valid_blocks(uasdata, ODIDValidBlocks())` followed by
`parse_payload(uasdata, valid_blocks)`. -/
def decode_uas (payload : Bytes) (s : AuthState) : Except PyErr Dict × AuthState :=
  match decode_valid_blocks payload ODIDValidBlocks.init with
  | .error e => (.error e, s)
  | .ok vb => parse_payload payload vb s

/-! ## `dronecot/classes.py` — framing and the sensor-position cache -/

/-- The character `\x7b` (opening brace). -/
def braceL : Char := Char.ofNat 123

/-- The character `\x7d` (closing brace). -/
def braceR : Char := Char.ofNat 125

/-- Python `payload.find("\x7d\x7b")`: index of the first occurrence of
the two-character object boundary, `Option.none` for `-1`. -/
def findBB : List Char → Option Nat
  | [] => Option.none
  | [_] => Option.none
  | c1 :: c2 :: rest =>
    if c1 = braceR ∧ c2 = braceL then some 0
    else (findBB (c2 :: rest)).map (· + 1)

theorem findBB_some_le (s : List Char) :
    ∀ p, findBB s = some p → p + 2 ≤ s.length := by
  induction s with
  | nil => intro p h; simp [findBB] at h
  | cons c1 rest ih =>
    intro p h
    match rest with
    | [] => simp [findBB] at h
    | c2 :: rest2 =>
      rw [findBB] at h
      split at h
      · cases h; simp
      · obtain ⟨q, hq, rfl⟩ := Option.map_eq_some'.mp h
        have := ih q hq
        simp only [List.length_cons] at this ⊢
        omega

/-- The framing loop of `MQTTWorker.process_payload`: repeatedly split the
buffer at the first `\x7d\x7b` boundary into a complete object (up to and
including the `\x7d`) and a remainder (starting at the following `\x7b`);
when no boundary remains, the rest of the buffer is the final object. -/
def process_payload_frames (payload : List Char) : List (List Char) :=
  match h : findBB payload with
  | Option.none => [payload]
  | some p => payload.take (p + 1) :: process_payload_frames (payload.drop (p + 1))
termination_by payload.length
decreasing_by
  simp only [List.length_drop]
  have := findBB_some_le payload p h
  omega

/-- Python `d.get(k)`: the stored value, or `None` when the key is absent. -/
def pyGet (d : Dict) (k : String) : PyVal :=
  (d.lookup k).getD .none

/-- Python `d.get(k, default)`. -/
def pyGetD (d : Dict) (k : String) (v : PyVal) : PyVal :=
  (d.lookup k).getD v

/-- Python `x is None`. -/
def isNoneV : PyVal → Bool
  | .none => true
  | _ => false

/-- The `SensorPositionRecord` dict built by
`MQTTWorker.handle_sensor_position` from a position message (absent keys
are stored as `None` by `message.get`). -/
def posRecord (message : Dict) (sensor : String) : Dict :=
  [("sensor_id", .str sensor),
   ("lat", pyGet message "lat"), ("lon", pyGet message "lon"),
   ("altHAE", pyGet message "altHAE"), ("altMSL", pyGet message "altMSL"),
   ("alt", pyGet message "alt"), ("track", pyGet message "track"),
   ("magtrack", pyGet message "magtrack"), ("speed", pyGet message "speed")]

/-- `self.sensor_positions`: sensor id → last accepted position record. -/
abbrev PosCache := List (String × Dict)

/-- Python dict assignment `c[k] = v`: replace in place when the key
exists, otherwise append. -/
def cacheSet (c : PosCache) (k : String) (v : Dict) : PosCache :=
  if (c.lookup k).isSome then
    c.map (fun kv => if kv.1 = k then (k, v) else kv)
  else c ++ [(k, v)]

/-- Python `str.split(sep)` over a character list: split at every
separator occurrence, keeping empty segments. -/
def splitOnChar (sep : Char) : List Char → List (List Char)
  | [] => [[]]
  | c :: rest =>
    match splitOnChar sep rest with
    | [] => [[]]
    | cur :: parts =>
      if c = sep then [] :: cur :: parts else (c :: cur) :: parts

/-- Python `s.split(sep)` for strings. -/
def pySplitStr (s : String) (sep : Char) : List String :=
  (splitOnChar sep s.data).map String.mk

/-- `MQTTWorker.handle_sensor_position(message)`: take the sensor id from
the third `/`-separated segment of the message topic
(`topic.split("/")[2]`) and overwrite that sensor's cache entry with the
record built from this message. -/
def handle_sensor_position (positions : PosCache) (message : Dict) :
    Except PyErr PosCache :=
  match pyGet message "topic" with
  | .str topic =>
    let parts := pySplitStr topic (Char.ofNat 47)
    if h : 2 < parts.length then
      let sensor := parts.get ⟨2, h⟩
      .ok (cacheSet positions sensor (posRecord message sensor))
    else .error .truncated
  | _ => .error .typeErr

/-! ## `dronecot/functions.py` — CoT translator functions -/

/-- Configuration: string keys to string values with inline defaults. -/
abbrev Config := List (String × String)

/-- `config.get(k, default)` on the configuration mapping. -/
def cfgGet (c : Config) (k d : String) : String :=
  (c.lookup k).getD d

/-- Models the external `pytak.DEFAULT_COT_STALE` constant opaquely. -/
def DEFAULT_COT_STALE : String := "120"

/-- Models the external `pytak.DEFAULT_HOST_ID` constant opaquely. -/
def DEFAULT_HOST_ID : String := "pytak"

/-- Models the external `pytak.DEFAULT_COT_ACCESS` constant opaquely. -/
def DEFAULT_COT_ACCESS : String := "Undefined"

/-- `dronecot.DEFAULT_UAS_COT_TYPE` from `constants.py`. -/
def DEFAULT_UAS_COT_TYPE : String := "a-u-A-M-H-Q"

/-- `dronecot.DEFAULT_OP_COT_TYPE` from `constants.py`. -/
def DEFAULT_OP_COT_TYPE : String := "a-u-G"

/-- `dronecot.DEFAULT_SENSOR_ID` from `constants.py`:
`"dronecot_" + hostname`; the hostname is modelled opaquely. -/
def DEFAULT_SENSOR_ID : String := "dronecot_localhost"

/-- ASCII apostrophe, used by Python `repr` of strings. -/
def quoteChar : Char := Char.ofNat 39

/-- Models CPython `str()` of a float opaquely (the exact shortest-repr
digits are irrelevant to every claim). -/
def floatStr : EFloat → String
  | .nan => "nan"
  | .inf => "inf"
  | .ninf => "-inf"
  | .finite q => toString q

/-- Python `str(v)` for the embedded values.  A one-element tuple of a
string renders via `repr` of its element; dict rendering is opaque
(never reached by any claim). -/
def pyStr : PyVal → String
  | .int n => toString n
  | .float x => floatStr x
  | .str s => s
  | .tupStr s =>
      "(" ++ String.singleton quoteChar ++ s ++ String.singleton quoteChar ++ ",)"
  | .tupTime a b c =>
      "(" ++ toString a ++ ", " ++ toString b ++ ", " ++ toString c ++ ")"
  | .dict _ => "dict"
  | .none => "None"

/-- Decimal digit test. -/
def isDigitChar (c : Char) : Bool :=
  48 ≤ c.toNat && c.toNat ≤ 57

/-- Digits to a natural number. -/
def digitsToNat (cs : List Char) : Nat :=
  cs.foldl (fun a c => a * 10 + (c.toNat - 48)) 0

/-- Python `int(s)` on a string: an optionally signed decimal literal,
`ValueError` otherwise. -/
def pyParseInt (s : String) : Except PyErr Int :=
  match s.data with
  | [] => .error .valueErr
  | c :: rest =>
    if c = Char.ofNat 45 then
      if rest ≠ [] ∧ rest.all isDigitChar then .ok (-(digitsToNat rest : Int))
      else .error .valueErr
    else if (c :: rest).all isDigitChar then .ok (digitsToNat (c :: rest) : Int)
    else .error .valueErr

/-- Python `data.get(k, \x7b\x7d)` where the value, if present, must be a
dict to be used as one afterwards. -/
def pyGetDict (d : Dict) (k : String) : Except PyErr Dict :=
  match d.lookup k with
  | Option.none => .ok []
  | some (.dict e) => .ok e
  | some _ => .error .typeErr

/-- The CoT event structure produced by the translator functions: the
`pytak.gen_cot_xml` point/identity attributes plus the detail contents
this code attaches (contact callsign, optional track speed, optional
parent link, vendor-extension attributes, remarks text). -/
structure CotEvent where
  lat : String
  lon : String
  ce : String
  le : String
  hae : String
  uid : String
  cot_type : String
  stale : Int
  access : String
  callsign : String
  remarks : String
  track_speed : Option String
  link_uid : Option String
  xattrs : List (String × String)
deriving DecidableEq

/-- `rid_op_to_cot_xml(data, config)`: the operator-position mapping.
Returns no event when `OperatorLatitude` or `OperatorLongitude` is
missing (or stored as `None`). -/
def rid_op_to_cot_xml (data : Dict) (config : Config) :
    Except PyErr (Option CotEvent) := do
  let lat := pyGet data "OperatorLatitude"
  let lon := pyGet data "OperatorLongitude"
  if isNoneV lat || isNoneV lon then
    return Option.none
  let uasid := pyGetD data "BasicID" (pyGetD data "BasicID_0" (.str "Unknown-BasicID_0"))
  let op_id := pyGetD data "OperatorID" uasid
  let cot_uid := "RID." ++ pyStr uasid ++ ".op"
  let cot_type := cfgGet config "OP_COT_TYPE" DEFAULT_OP_COT_TYPE
  let cot_stale ← pyParseInt (cfgGet config "COT_STALE" DEFAULT_COT_STALE)
  let cot_host_id := cfgGet config "COT_HOST_ID" DEFAULT_HOST_ID
  let callsign := pyStr op_id
  let remarks := String.intercalate " "
    ((["UAS ID=" ++ pyStr uasid ++ " OperatorID=" ++ pyStr op_id,
       cot_host_id]).filter (fun f => f ≠ ""))
  pure (some
    { lat := pyStr lat, lon := pyStr lon,
      ce := pyStr (pyGetD data "HorizAccuracy" (.str "9999999.0")),
      le := pyStr (pyGetD data "VertAccuracy" (.str "9999999.0")),
      hae := pyStr (pyGetD data "OperatorAltitudeGeo" (.str "9999999.0")),
      uid := cot_uid, cot_type := cot_type, stale := cot_stale,
      access := cfgGet config "COT_ACCESS" DEFAULT_COT_ACCESS,
      callsign := callsign, remarks := remarks,
      track_speed := Option.none, link_uid := Option.none,
      xattrs := [("cot_host_id", cot_host_id),
                 ("OperatorID", pyStr op_id), ("UASID", pyStr op_id)] })

/-- `rid_uas_to_cot_xml(data, config)`: the UAS-position mapping.
Returns no event when `Latitude` or `Longitude` is missing (or stored as
`None`); otherwise builds the event with the operator link and the
sensor-provenance attributes from the enclosing message envelope. -/
def rid_uas_to_cot_xml (data : Dict) (config : Config) :
    Except PyErr (Option CotEvent) := do
  let lat := pyGet data "Latitude"
  let lon := pyGet data "Longitude"
  if isNoneV lat || isNoneV lon then
    return Option.none
  let src_data ← pyGetDict data "data"
  let _extra ← pyGetDict data "extra"
  let uasid := pyGetD data "BasicID" (pyGetD data "BasicID_0" (.str "Unknown-BasicID_0"))
  let op_id := pyGetD data "OperatorID" uasid
  let op_uid := "RID." ++ pyStr op_id ++ ".op"
  let cot_uid := "RID." ++ pyStr uasid ++ ".uas"
  let cot_type := cfgGet config "UAS_COT_TYPE" DEFAULT_UAS_COT_TYPE
  let cot_stale ← pyParseInt (cfgGet config "COT_STALE" DEFAULT_COT_STALE)
  let cot_host_id := cfgGet config "COT_HOST_ID" DEFAULT_HOST_ID
  let callsign := pyStr uasid
  let sensor_id :=
    pyStr (pyGetD src_data "sensor_id" (pyGetD src_data "sensor_id" (.str DEFAULT_SENSOR_ID)))
  let remarks := String.intercalate " "
    ((["UAS: " ++ pyStr uasid, "Operator: " ++ pyStr op_id,
       cot_host_id]).filter (fun f => f ≠ ""))
  pure (some
    { lat := pyStr lat, lon := pyStr lon,
      ce := pyStr (pyGetD data "HorizAccuracy" (.str "9999999.0")),
      le := pyStr (pyGetD data "VertAccuracy" (.str "9999999.0")),
      hae := pyStr (pyGetD data "AltitudeGeo" (.str "9999999.0")),
      uid := cot_uid, cot_type := cot_type, stale := cot_stale,
      access := cfgGet config "COT_ACCESS" DEFAULT_COT_ACCESS,
      callsign := callsign, remarks := remarks,
      track_speed := some (pyStr (pyGetD data "SpeedHorizontal" (.int 0))),
      link_uid := some op_uid,
      xattrs := [("sensor_id", sensor_id),
                 ("rssi", pyStr (pyGet src_data "RSSI")),
                 ("channel", pyStr (pyGet src_data "channel")),
                 ("timestamp", pyStr (pyGet src_data "timestamp")),
                 ("mac_address", pyStr (pyGet src_data "MAC address")),
                 ("type", pyStr (pyGetD src_data "type" (.str "Unknown-Sensor-Payload-Type"))),
                 ("host_id", cot_host_id),
                 ("rid_op", pyStr op_id), ("rid_uas", pyStr uasid)] })

/-! ## Helper lemmas -/

theorem pySlice_length (p : Bytes) (a b : Nat) :
    (pySlice p a b).length = min b p.length - a := by
  simp [pySlice]

theorem unpack_u_ok (p : Bytes) (n a : Nat) (h : a + n ≤ p.length) :
    unpack_u n (pySlice p a (a + n)) = .ok (leNat (pySlice p a (a + n))) := by
  unfold unpack_u
  rw [if_pos]
  rw [pySlice_length]
  omega

theorem unpack_f64_ok (p : Bytes) (a : Nat) (h : a + 8 ≤ p.length) :
    unpack_f64 (pySlice p a (a + 8)) = .ok (decodeIEEE 52 11 (leNat (pySlice p a (a + 8)))) := by
  unfold unpack_f64
  rw [if_pos]
  rw [pySlice_length]
  omega

theorem unpack_f32_ok (p : Bytes) (a : Nat) (h : a + 4 ≤ p.length) :
    unpack_f32 (pySlice p a (a + 4)) = .ok (decodeIEEE 23 8 (leNat (pySlice p a (a + 4)))) := by
  unfold unpack_f32
  rw [if_pos]
  rw [pySlice_length]
  omega

theorem lookup_append {α β : Type} [BEq α] (k : α) (xs ys : List (α × β)) :
    List.lookup k (xs ++ ys) =
      match List.lookup k xs with
      | some v => some v
      | Option.none => List.lookup k ys := by
  induction xs with
  | nil => simp [List.lookup]
  | cons hd tl ih =>
    simp only [List.cons_append, List.lookup]
    cases h : k == hd.1 <;> simp [ih]

theorem lookup_dmerge_left (a b : Dict) (k : String) (v : PyVal)
    (ha : a.lookup k = some v) :
    List.lookup k (a.map (fun kv => (kv.1, (b.lookup kv.1).getD kv.2))) =
      some ((b.lookup k).getD v) := by
  induction a with
  | nil => simp [List.lookup] at ha
  | cons hd tl ih =>
    simp only [List.lookup, List.map] at ha ⊢
    cases h : k == hd.1 with
    | true =>
      rw [h] at ha
      simp only at ha
      cases ha
      have : k = hd.1 := by
        simpa using h
      rw [this]
    | false =>
      rw [h] at ha
      simp only at ha
      exact ih ha

theorem lookup_dmerge_left_none (a b : Dict) (k : String)
    (ha : a.lookup k = Option.none) :
    List.lookup k (a.map (fun kv => (kv.1, (b.lookup kv.1).getD kv.2))) =
      Option.none := by
  induction a with
  | nil => simp [List.lookup]
  | cons hd tl ih =>
    simp only [List.lookup, List.map] at ha ⊢
    cases h : k == hd.1 with
    | true => rw [h] at ha; simp at ha
    | false =>
      rw [h] at ha
      simp only at ha
      exact ih ha

theorem lookup_filter_absent (a b : Dict) (k : String)
    (ha : a.lookup k = Option.none) :
    List.lookup k (b.filter (fun kv => (a.lookup kv.1).isNone)) = b.lookup k := by
  induction b with
  | nil => simp
  | cons hd tl ih =>
    by_cases hk : (k == hd.1) = true
    · have hk' : k = hd.1 := by simpa using hk
      have : (a.lookup hd.1).isNone = true := by rw [← hk', ha]; rfl
      rw [List.filter_cons]
      rw [if_pos this]
      simp only [List.lookup, hk]
    · have hk' : (k == hd.1) = false := by simpa using hk
      rw [List.filter_cons]
      split
      · simp only [List.lookup, hk', ih]
      · simp only [List.lookup, hk', ih]

theorem lookup_filter_present (a b : Dict) (k : String) (v : PyVal)
    (ha : a.lookup k = some v) :
    List.lookup k (b.filter (fun kv => (a.lookup kv.1).isNone)) = Option.none := by
  induction b with
  | nil => simp
  | cons hd tl ih =>
    by_cases hk : (k == hd.1) = true
    · have hk' : k = hd.1 := by simpa using hk
      have : (a.lookup hd.1).isNone = false := by rw [← hk', ha]; rfl
      rw [List.filter_cons]
      rw [if_neg (by simp [this])]
      exact ih
    · have hk' : (k == hd.1) = false := by simpa using hk
      rw [List.filter_cons]
      split
      · simp only [List.lookup, hk', ih]
      · exact ih

/-- The observable dict-merge semantics: `d1 | d2` looks up to `d2`'s
value when present, else `d1`'s. -/
theorem dmerge_lookup (a b : Dict) (k : String) :
    (dmerge a b).lookup k =
      match b.lookup k with
      | some v => some v
      | Option.none => a.lookup k := by
  unfold dmerge
  rw [lookup_append]
  cases ha : a.lookup k with
  | none =>
    rw [lookup_dmerge_left_none a b k ha, lookup_filter_absent a b k ha]
    cases hb : b.lookup k <;> simp
  | some v =>
    rw [lookup_dmerge_left a b k v ha, lookup_filter_present a b k v ha]
    cases hb : b.lookup k <;> simp [Option.getD]

theorem dmerge_nil (d : Dict) : dmerge [] d = d := by
  unfold dmerge
  simp [List.lookup]

theorem unpack_u_okb (p : Bytes) (n a b : Nat) (hb : b = a + n)
    (h : b ≤ p.length) : unpack_u n (pySlice p a b) = .ok (leNat (pySlice p a b)) := by
  subst hb
  exact unpack_u_ok p n a h

theorem unpack_f64_okb (p : Bytes) (a b : Nat) (hb : b = a + 8) (h : b ≤ p.length) :
    unpack_f64 (pySlice p a b) = .ok (decodeIEEE 52 11 (leNat (pySlice p a b))) := by
  subst hb
  exact unpack_f64_ok p a h

theorem unpack_f32_okb (p : Bytes) (a b : Nat) (hb : b = a + 4) (h : b ≤ p.length) :
    unpack_f32 (pySlice p a b) = .ok (decodeIEEE 23 8 (leNat (pySlice p a b))) := by
  subst hb
  exact unpack_f32_ok p a h

/-- Characterization of `parse_AuthPage` on the final page (`p > 0`,
`p = LastPageIndex`): only `DataPage` and `AuthType` are stored. -/
theorem parse_AuthPage_final (payload : Bytes) (p L len : Nat) (s : AuthState)
    (hL : s.lastPageIndex = some L) (hlen : s.length = some len)
    (hp : p ≠ 0) (hpL : p = L)
    (hb : 136 + 40 * p + 5 ≤ payload.length) :
    parse_AuthPage payload p s =
      (.ok [("DataPage", .int (leNat (pySlice payload (136 + 40 * p) (136 + 40 * p + 1)))),
            ("AuthType", .int (leNat (pySlice payload (136 + 40 * p + 4) (136 + 40 * p + 5))))],
       s) := by
  subst hpL
  have h1 := unpack_u_okb payload 1 (136 + 40 * p) (136 + 40 * p + 1) (by omega) (by omega)
  have h2 := unpack_u_okb payload 1 (136 + 40 * p + 4) (136 + 40 * p + 5) (by omega) (by omega)
  simp only [parse_AuthPage, h1, h2]
  rw [if_neg hp, hL]
  simp [hlen]

/-- Characterization of `parse_AuthPage` on an intermediate page
(`p > 0`, `p ≠ LastPageIndex`): the full 23-byte `AuthData` is stored. -/
theorem parse_AuthPage_mid (payload : Bytes) (p L : Nat) (s : AuthState)
    (hL : s.lastPageIndex = some L)
    (hp : p ≠ 0) (hpL : p ≠ L)
    (hb : 136 + 40 * p + 5 ≤ payload.length) :
    parse_AuthPage payload p s =
      (.ok [("DataPage", .int (leNat (pySlice payload (136 + 40 * p) (136 + 40 * p + 1)))),
            ("AuthType", .int (leNat (pySlice payload (136 + 40 * p + 4) (136 + 40 * p + 5)))),
            ("AuthData", .str (bytesHex (pySlice payload (136 + 40 * p + 16) (136 + 40 * p + 16 + 23))))],
       s) := by
  have h1 := unpack_u_okb payload 1 (136 + 40 * p) (136 + 40 * p + 1) (by omega) (by omega)
  have h2 := unpack_u_okb payload 1 (136 + 40 * p + 4) (136 + 40 * p + 5) (by omega) (by omega)
  simp only [parse_AuthPage, h1, h2]
  rw [if_neg hp, hL]
  simp [hpL]

/-- Characterization of `parse_AuthPage` on page 0 with the payload long
enough: both globals are (re)assigned from the payload, and the result
carries `LastPageIndex`, `Length` and a 17-byte `AuthData`. -/
theorem parse_AuthPage_page0 (payload : Bytes) (s : AuthState)
    (hb : 152 ≤ payload.length) :
    parse_AuthPage payload 0 s =
      (.ok ((if leNat (pySlice payload 148 152) = 0 then
              [("DataPage", .int (leNat (pySlice payload 136 137))),
               ("AuthType", .int (leNat (pySlice payload 140 141))),
               ("LastPageIndex", .int (leNat (pySlice payload 144 145))),
               ("Length", .int (leNat (pySlice payload 145 146)))]
             else
              [("DataPage", .int (leNat (pySlice payload 136 137))),
               ("AuthType", .int (leNat (pySlice payload 140 141))),
               ("LastPageIndex", .int (leNat (pySlice payload 144 145))),
               ("Length", .int (leNat (pySlice payload 145 146))),
               ("Timestamp", .str (pyUTCString (leNat (pySlice payload 148 152) + 1546300800)))]) ++
            [("AuthData", .str (bytesHex (pySlice payload 152 169)))]),
       ⟨some (leNat (pySlice payload 144 145)), some (leNat (pySlice payload 145 146))⟩) := by
  have h1 := unpack_u_okb payload 1 136 137 (by omega) (by omega)
  have h2 := unpack_u_okb payload 1 140 141 (by omega) (by omega)
  have h3 := unpack_u_okb payload 1 144 145 (by omega) (by omega)
  have h4 := unpack_u_okb payload 1 145 146 (by omega) (by omega)
  have h5 := unpack_u_okb payload 4 148 152 (by omega) (by omega)
  simp only [parse_AuthPage]
  norm_num
  simp only [h1, h2, h3, h4, h5]

/-- The page-0 decode reads no global state: its dict result is the same
from any starting state. -/
theorem parse_AuthPage0_result_indep (payload : Bytes) (s t : AuthState) :
    (parse_AuthPage payload 0 s).1 = (parse_AuthPage payload 0 t).1 := by
  simp only [parse_AuthPage]
  repeat' split
  all_goals first | rfl | simp_all

/-- The page-0 decode is stable: rerunning it from the state it produced
gives the same result and the same state. -/
theorem parse_AuthPage0_stable (payload : Bytes) (s : AuthState) :
    parse_AuthPage payload 0 ((parse_AuthPage payload 0 s).2) =
      ((parse_AuthPage payload 0 s).1, (parse_AuthPage payload 0 s).2) := by
  simp only [parse_AuthPage]
  repeat' split
  all_goals first | rfl | simp_all

/-- A successful page-0 decode fully assigns both globals, so the
resulting state does not depend on the starting state. -/
theorem parse_AuthPage0_ok_state (payload : Bytes) (s t : AuthState) (d : Dict)
    (h : (parse_AuthPage payload 0 s).1 = .ok d) :
    (parse_AuthPage payload 0 s).2 = (parse_AuthPage payload 0 t).2 := by
  simp only [parse_AuthPage] at h ⊢
  repeat' split
  all_goals first | rfl | simp_all

/-- A page other than page 0 never assigns the globals. -/
theorem parse_AuthPage_ne0_state (payload : Bytes) (p : Nat) (s : AuthState)
    (hp : p ≠ 0) : (parse_AuthPage payload p s).2 = s := by
  simp only [parse_AuthPage]
  repeat' split
  all_goals first | rfl | simp_all

/-- A run of the authentication loop over pages other than page 0 never
changes the global state. -/
theorem authLoop_state_ne0 (payload : Bytes) (av : List Nat) :
    ∀ (L : List Nat) (pl : Dict) (s : AuthState), 0 ∉ L →
      (authLoop payload av L pl s).2 = s := by
  intro L
  induction L with
  | nil => intro pl s _; rfl
  | cons x rest ih =>
    intro pl s h0
    have hx : x ≠ 0 := fun hx => h0 (hx ▸ List.mem_cons_self x rest)
    have hrest : 0 ∉ rest := fun hr => h0 (List.mem_cons_of_mem x hr)
    simp only [authLoop]
    split
    · cases hpa : parse_AuthPage payload x s with
      | mk r s1 =>
        have hs1 : s1 = s := by
          have := parse_AuthPage_ne0_state payload x s hx
          rw [hpa] at this
          exact this
        subst hs1
        cases r with
        | error e => simp
        | ok d => simpa using ih (dmerge pl d) _ hrest
    · exact ih pl s hrest

/-- Idempotence of the authentication loop over `0 :: rest` (no page 0 in
`rest`): rerunning it from the state the first run produced yields the
same dict result. -/
theorem authLoop_idem (payload : Bytes) (av : List Nat) (rest : List Nat)
    (hrest : 0 ∉ rest) (pl : Dict) (s : AuthState) :
    (authLoop payload av (0 :: rest) pl
        ((authLoop payload av (0 :: rest) pl s).2)).1 =
      (authLoop payload av (0 :: rest) pl s).1 := by
  simp only [authLoop]
  split
  · -- page 0's flag is exactly 1
    cases hpa : parse_AuthPage payload 0 s with
    | mk r s0 =>
      cases r with
      | error e =>
        have hstable := parse_AuthPage0_stable payload s
        rw [hpa] at hstable
        simp only at hstable
        simp [hstable]
      | ok d =>
        have hsend : (authLoop payload av rest (dmerge pl d) s0).2 = s0 :=
          authLoop_state_ne0 payload av rest (dmerge pl d) s0 hrest
        have hstable := parse_AuthPage0_stable payload s
        rw [hpa] at hstable
        simp only at hstable
        simp [hsend, hstable]
  · -- page 0 skipped: the loop never writes state
    have hsend : (authLoop payload av rest pl s).2 = s :=
      authLoop_state_ne0 payload av rest pl s hrest
    rw [hsend]

/-- When page 0's flag is exactly 1, the loop's dict result over
`0 :: rest` does not depend on the incoming global state. -/
theorem authLoop_indep (payload : Bytes) (av : List Nat) (rest : List Nat)
    (h0 : av.getD 0 0 = 1) (pl : Dict) (s t : AuthState) :
    (authLoop payload av (0 :: rest) pl s).1 =
      (authLoop payload av (0 :: rest) pl t).1 := by
  simp only [authLoop, h0, if_pos]
  have hind := parse_AuthPage0_result_indep payload s t
  cases hpa : parse_AuthPage payload 0 s with
  | mk r s0 =>
    cases hpb : parse_AuthPage payload 0 t with
    | mk r' t0 =>
      have hr : r = r' := by
        rw [hpa, hpb] at hind
        exact hind
      subst hr
      cases r with
      | error e => simp
      | ok d =>
        have hst : s0 = t0 := by
          have := parse_AuthPage0_ok_state payload s t d (by rw [hpa])
          rw [hpa, hpb] at this
          exact this
        subst hst
        simp

theorem range16_cons : List.range 16 = 0 :: [1, 2, 3, 4, 5, 6, 7, 8, 9, 10, 11, 12, 13, 14, 15] := by
  rfl

/-- C3 (amended): two successive calls to `parse_payload` with the same
blob and flags yield the same merged record (the second run re-derives
the same global assembly state), and when authentication page 0's flag
is exactly 1 the result is independent of the assembly state left behind
by earlier decode calls.  (Without page 0 the result can depend on that
state, which is what the counterexample exhibits.) -/
theorem claim3_decode_idempotence :
    ∀ (payload : Bytes) (vb : ODIDValidBlocks) (s t : AuthState),
      (parse_payload payload vb ((parse_payload payload vb s).2)).1 =
        (parse_payload payload vb s).1 ∧
      (vb.AuthValid.getD 0 0 = 1 →
        (parse_payload payload vb s).1 = (parse_payload payload vb t).1) := by
  intro payload vb s t
  constructor
  · simp only [parse_payload]
    split
    · rfl
    · rw [range16_cons]
      exact authLoop_idem payload vb.AuthValid _ (by decide) _ s
  · intro h0
    simp only [parse_payload]
    split
    · rfl
    · rw [range16_cons]
      exact authLoop_indep payload vb.AuthValid _ h0 _ s t

/-- Witness for C3 at a concrete blob: idempotence of a decode whose
page 0 is valid, and independence of its result from two different
leftover global states. -/
theorem claim3_decode_idempotence_witness :
    ((parse_payload (List.replicate 914 0)
        ⟨0, 0, 0, 0, 0, 0, [1, 0, 0, 0, 0, 0, 0, 0, 0, 0, 0, 0, 0, 0, 0, 0]⟩
        ((parse_payload (List.replicate 914 0)
          ⟨0, 0, 0, 0, 0, 0, [1, 0, 0, 0, 0, 0, 0, 0, 0, 0, 0, 0, 0, 0, 0, 0]⟩
          AuthState.unset).2)).1 =
      (parse_payload (List.replicate 914 0)
        ⟨0, 0, 0, 0, 0, 0, [1, 0, 0, 0, 0, 0, 0, 0, 0, 0, 0, 0, 0, 0, 0, 0]⟩
        AuthState.unset).1) ∧
    ((parse_payload (List.replicate 914 0)
        ⟨0, 0, 0, 0, 0, 0, [1, 0, 0, 0, 0, 0, 0, 0, 0, 0, 0, 0, 0, 0, 0, 0]⟩
        AuthState.unset).1 =
      (parse_payload (List.replicate 914 0)
        ⟨0, 0, 0, 0, 0, 0, [1, 0, 0, 0, 0, 0, 0, 0, 0, 0, 0, 0, 0, 0, 0, 0]⟩
        ⟨some 3, some 7⟩).1) :=
  ⟨(claim3_decode_idempotence (List.replicate 914 0)
      ⟨0, 0, 0, 0, 0, 0, [1, 0, 0, 0, 0, 0, 0, 0, 0, 0, 0, 0, 0, 0, 0, 0]⟩
      AuthState.unset ⟨some 3, some 7⟩).1,
   (claim3_decode_idempotence (List.replicate 914 0)
      ⟨0, 0, 0, 0, 0, 0, [1, 0, 0, 0, 0, 0, 0, 0, 0, 0, 0, 0, 0, 0, 0, 0]⟩
      AuthState.unset ⟨some 3, some 7⟩).2 (by decide)⟩

/-- Counterexample to C3 as stated: with only authentication page 1
valid, the same blob and flags decode to different merged records under
two different global states left by earlier calls (page 1 is treated as
the final page under one and as an intermediate page under the other),
so the result does not depend only on the blob and its validity flags. -/
theorem claim3_counterexample :
    (parse_payload (List.replicate 914 0)
        ⟨0, 0, 0, 0, 0, 0, [0, 1, 0, 0, 0, 0, 0, 0, 0, 0, 0, 0, 0, 0, 0, 0]⟩
        ⟨some 1, some 40⟩).1 ≠
      (parse_payload (List.replicate 914 0)
        ⟨0, 0, 0, 0, 0, 0, [0, 1, 0, 0, 0, 0, 0, 0, 0, 0, 0, 0, 0, 0, 0, 0]⟩
        ⟨some 2, some 40⟩).1 := by
  intro h
  have hA : (parse_payload (List.replicate 914 0)
      ⟨0, 0, 0, 0, 0, 0, [0, 1, 0, 0, 0, 0, 0, 0, 0, 0, 0, 0, 0, 0, 0, 0]⟩
      ⟨some 1, some 40⟩).1 =
      .ok [("DataPage", .int 0), ("AuthType", .int 0)] := rfl
  have hB : (parse_payload (List.replicate 914 0)
      ⟨0, 0, 0, 0, 0, 0, [0, 1, 0, 0, 0, 0, 0, 0, 0, 0, 0, 0, 0, 0, 0, 0]⟩
      ⟨some 2, some 40⟩).1 =
      .ok [("DataPage", .int 0), ("AuthType", .int 0),
           ("AuthData", .str (bytesHex (pySlice (List.replicate 914 0) 192 215)))] := rfl
  rw [hA, hB] at h
  have h2 : (2 : Nat) = 3 :=
    congrArg (fun r => match r with | Except.ok d => d.length | Except.error _ => 0) h
  exact absurd h2 (by decide)

theorem authFinalSliceLen_le (len : Nat) : authFinalSliceLen len ≤ 22 := by
  unfold authFinalSliceLen
  have h1 : 0 ≤ ((len : Int) - 17).emod 23 := Int.emod_nonneg _ (by norm_num)
  have h2 : ((len : Int) - 17).emod 23 < 23 := Int.emod_lt_of_pos _ (by norm_num)
  omega

/-- C9: for a page `p > 0` equal to the established `LastPageIndex`, the
dict returned by `parse_AuthPage` has exactly the keys `DataPage` and
`AuthType` (the truncated `AuthData` slice is computed but never
stored); an intermediate page additionally stores `AuthData`, and page 0
always stores an `AuthData` field. -/
theorem claim9_final_page_drops_authdata :
    ∀ (payload : Bytes) (p L len : Nat) (s : AuthState),
      s.lastPageIndex = some L → s.length = some len → 0 < p →
      136 + 40 * p + 5 ≤ payload.length →
      ((p = L →
        (parse_AuthPage payload p s).1.map (fun d => d.map Prod.fst) =
          .ok ["DataPage", "AuthType"]) ∧
       (p ≠ L →
        (parse_AuthPage payload p s).1.map (fun d => d.map Prod.fst) =
          .ok ["DataPage", "AuthType", "AuthData"]) ∧
       (152 ≤ payload.length →
        (parse_AuthPage payload 0 s).1.map (fun d => (d.lookup "AuthData").isSome) =
          .ok true)) := by
  intro payload p L len s hL hlen hp hb
  refine ⟨?_, ?_, ?_⟩
  · intro hpL
    rw [parse_AuthPage_final payload p L len s hL hlen (by omega) hpL hb]
    rfl
  · intro hpL
    rw [parse_AuthPage_mid payload p L s hL (by omega) hpL hb]
    rfl
  · intro hb0
    rw [parse_AuthPage_page0 payload s hb0]
    simp only [Except.map]
    split <;> rfl

set_option maxRecDepth 8192 in
/-- Witness for C9 on a concrete blob with `LastPageIndex = 2`,
`Length = 40`: page 2 keeps only `DataPage`/`AuthType`, page 1 also
stores `AuthData`, page 0 stores `AuthData`. -/
theorem claim9_witness :
    ((parse_AuthPage (((List.replicate 914 0).set 144 2).set 145 40) 2
        ⟨some 2, some 40⟩).1.map (fun d => d.map Prod.fst) =
      .ok ["DataPage", "AuthType"]) ∧
    ((parse_AuthPage (((List.replicate 914 0).set 144 2).set 145 40) 1
        ⟨some 2, some 40⟩).1.map (fun d => d.map Prod.fst) =
      .ok ["DataPage", "AuthType", "AuthData"]) ∧
    ((parse_AuthPage (((List.replicate 914 0).set 144 2).set 145 40) 0
        ⟨some 2, some 40⟩).1.map (fun d => (d.lookup "AuthData").isSome) =
      .ok true) := by
  have h2 := claim9_final_page_drops_authdata
    (((List.replicate 914 0).set 144 2).set 145 40) 2 2 40 ⟨some 2, some 40⟩
    rfl rfl (by decide) (by decide)
  have h1 := claim9_final_page_drops_authdata
    (((List.replicate 914 0).set 144 2).set 145 40) 1 2 40 ⟨some 2, some 40⟩
    rfl rfl (by decide) (by decide)
  exact ⟨h2.1 rfl, h1.2.1 (by decide), h2.2.2 (by decide)⟩

/-- C1 (amended): with the assembly state holding `lastPageIndex = L` and
`length = len`, an intermediate page (`0 < p`, `p ≠ L`) decodes and
stores the full 23 bytes of `AuthData`, while the final page (`p = L`)
computes an auth-data slice of exactly `(len − 17) mod 23` bytes that is
not included in its decoded output; in particular for `len = 40` the
final slice has `(40 − 17) mod 23 = 0` bytes, not 23. -/
theorem claim1_final_truncation :
    ∀ (payload : Bytes) (p L len : Nat) (s : AuthState),
      s.lastPageIndex = some L → s.length = some len → 0 < p →
      136 + 40 * p + 39 ≤ payload.length →
      ((p ≠ L →
        (parse_AuthPage payload p s).1.map (fun d => d.lookup "AuthData") =
          .ok (some (.str (bytesHex
            (pySlice payload (136 + 40 * p + 16) (136 + 40 * p + 16 + 23))))) ∧
        (pySlice payload (136 + 40 * p + 16) (136 + 40 * p + 16 + 23)).length = 23) ∧
       (p = L →
        (parse_AuthPage payload p s).1.map (fun d => d.lookup "AuthData") =
          .ok Option.none ∧
        (authFinalSlice payload p len).length = authFinalSliceLen len) ∧
       authFinalSliceLen 40 = 0) := by
  intro payload p L len s hL hlen hp hb
  refine ⟨?_, ?_, by decide⟩
  · intro hpL
    rw [parse_AuthPage_mid payload p L s hL (by omega) hpL (by omega)]
    constructor
    · rfl
    · rw [pySlice_length]
      omega
  · intro hpL
    rw [parse_AuthPage_final payload p L len s hL hlen (by omega) hpL (by omega)]
    constructor
    · rfl
    · unfold authFinalSlice
      rw [pySlice_length]
      have := authFinalSliceLen_le len
      omega

set_option maxRecDepth 8192 in
/-- Witness for C1 (amended) on a concrete blob with `LastPageIndex = 2`,
`Length = 40`: page 1 stores 23 bytes of `AuthData`; page 2's output has
no `AuthData` and its computed slice is empty. -/
theorem claim1_final_truncation_witness :
    ((parse_AuthPage (((List.replicate 914 0).set 144 2).set 145 40) 1
        ⟨some 2, some 40⟩).1.map (fun d => d.lookup "AuthData") =
      .ok (some (.str (bytesHex
        (pySlice (((List.replicate 914 0).set 144 2).set 145 40) 192 215)))) ∧
     (pySlice (((List.replicate 914 0).set 144 2).set 145 40) 192 215).length = 23) ∧
    ((parse_AuthPage (((List.replicate 914 0).set 144 2).set 145 40) 2
        ⟨some 2, some 40⟩).1.map (fun d => d.lookup "AuthData") = .ok Option.none ∧
     (authFinalSlice (((List.replicate 914 0).set 144 2).set 145 40) 2 40).length =
       authFinalSliceLen 40) := by
  have h1 := claim1_final_truncation
    (((List.replicate 914 0).set 144 2).set 145 40) 1 2 40 ⟨some 2, some 40⟩
    rfl rfl (by decide) (by decide)
  have h2 := claim1_final_truncation
    (((List.replicate 914 0).set 144 2).set 145 40) 2 2 40 ⟨some 2, some 40⟩
    rfl rfl (by decide) (by decide)
  have hm := h1.1 (by decide)
  have hf := h2.2.1 rfl
  exact ⟨by simpa using hm, hf⟩

set_option maxRecDepth 8192 in
/-- Counterexample to C1 as stated: on a blob whose authentication page 0
carries `lastPageIndex = 2` and `length = 40`, the decoded page 2 has no
auth data at all in its output (and the computed slice length is
`(40 − 17) mod 23 = 0`), not 23 bytes. -/
theorem claim1_counterexample :
    (parse_AuthPage (((List.replicate 914 0).set 144 2).set 145 40) 0
        AuthState.unset).2 = ⟨some 2, some 40⟩ ∧
    (parse_AuthPage (((List.replicate 914 0).set 144 2).set 145 40) 2
        ⟨some 2, some 40⟩).1.map (fun d => d.lookup "AuthData") = .ok Option.none ∧
    authFinalSliceLen 40 = 0 ∧ (authFinalSliceLen 40 = 23 → False) := by
  exact ⟨rfl, rfl, rfl, by decide⟩

/-- A blob shorter than 914 bytes makes `decode_valid_blocks` raise the
truncation error (one of the fixed-offset flag reads is out of range). -/
theorem decode_valid_blocks_short (payload : Bytes) (vb : ODIDValidBlocks)
    (h : payload.length < 914) :
    decode_valid_blocks payload vb = .error .truncated := by
  unfold decode_valid_blocks
  simp only [pyIndex, bind]
  by_cases h892 : 892 < payload.length
  case neg => rw [dif_neg h892]; try rfl
  rw [dif_pos h892]
  simp only [Except.bind]
  by_cases h893 : 893 < payload.length
  case neg => rw [dif_neg h893]; try rfl
  rw [dif_pos h893]
  simp only [Except.bind]
  by_cases h894 : 894 < payload.length
  case neg => rw [dif_neg h894]; try rfl
  rw [dif_pos h894]
  simp only [Except.bind]
  by_cases h895 : 895 < payload.length
  case neg => rw [dif_neg h895]; try rfl
  rw [dif_pos h895]
  simp only [Except.bind]
  by_cases h896 : 896 < payload.length
  case neg => rw [dif_neg h896]; try rfl
  rw [dif_pos h896]
  simp only [Except.bind]
  by_cases h897 : 897 < payload.length
  case neg => rw [dif_neg h897]; try rfl
  rw [dif_pos h897]
  simp only [Except.bind]
  by_cases h898 : 898 < payload.length
  case neg => rw [dif_neg h898]; try rfl
  rw [dif_pos h898]
  simp only [Except.bind]
  by_cases h899 : 899 < payload.length
  case neg => rw [dif_neg h899]; try rfl
  rw [dif_pos h899]
  simp only [Except.bind]
  by_cases h900 : 900 < payload.length
  case neg => rw [dif_neg h900]; try rfl
  rw [dif_pos h900]
  simp only [Except.bind]
  by_cases h901 : 901 < payload.length
  case neg => rw [dif_neg h901]; try rfl
  rw [dif_pos h901]
  simp only [Except.bind]
  by_cases h902 : 902 < payload.length
  case neg => rw [dif_neg h902]; try rfl
  rw [dif_pos h902]
  simp only [Except.bind]
  by_cases h903 : 903 < payload.length
  case neg => rw [dif_neg h903]; try rfl
  rw [dif_pos h903]
  simp only [Except.bind]
  by_cases h904 : 904 < payload.length
  case neg => rw [dif_neg h904]; try rfl
  rw [dif_pos h904]
  simp only [Except.bind]
  by_cases h905 : 905 < payload.length
  case neg => rw [dif_neg h905]; try rfl
  rw [dif_pos h905]
  simp only [Except.bind]
  by_cases h906 : 906 < payload.length
  case neg => rw [dif_neg h906]; try rfl
  rw [dif_pos h906]
  simp only [Except.bind]
  by_cases h907 : 907 < payload.length
  case neg => rw [dif_neg h907]; try rfl
  rw [dif_pos h907]
  simp only [Except.bind]
  by_cases h908 : 908 < payload.length
  case neg => rw [dif_neg h908]; try rfl
  rw [dif_pos h908]
  simp only [Except.bind]
  by_cases h911 : 911 < payload.length
  case neg => rw [dif_neg h911]; try rfl
  rw [dif_pos h911]
  simp only [Except.bind]
  by_cases h912 : 912 < payload.length
  case neg => rw [dif_neg h912]; try rfl
  rw [dif_pos h912]
  simp only [Except.bind]
  by_cases h913 : 913 < payload.length
  case neg => rw [dif_neg h913]; try rfl
  rw [dif_pos h913]
  simp only [Except.bind]
  exact absurd h913 (by omega)

/-- Map every validity flag to `1` iff it is exactly `1`, and to `0`
otherwise (the spec's "treated as falsy"). -/
def normFlag (v : Nat) : Nat :=
  if v = 1 then 1 else 0

/-- `normFlag` applied to every flag of a validity-blocks object. -/
def normFlags (vb : ODIDValidBlocks) : ODIDValidBlocks :=
  ⟨normFlag vb.BasicID0_valid, normFlag vb.BasicID1_valid,
   normFlag vb.LocationValid, normFlag vb.SelfIDValid,
   normFlag vb.SystemValid, normFlag vb.OperatorIDValid,
   vb.AuthValid.map normFlag⟩

theorem normFlag_eq_one (v : Nat) : normFlag v = 1 ↔ v = 1 := by
  unfold normFlag
  split <;> simp_all

theorem getD_map_normFlag (av : List Nat) (x : Nat) :
    (av.map normFlag).getD x 0 = normFlag (av.getD x 0) := by
  simp only [List.getD, List.get?_eq_getElem?, List.getElem?_map]
  cases h : av[x]? <;> simp [h, normFlag]

theorem authLoop_norm (payload : Bytes) (av : List Nat) :
    ∀ (L : List Nat) (pl : Dict) (s : AuthState),
      authLoop payload (av.map normFlag) L pl s = authLoop payload av L pl s := by
  intro L
  induction L with
  | nil => intro pl s; rfl
  | cons x rest ih =>
    intro pl s
    simp only [authLoop, getD_map_normFlag, normFlag_eq_one]
    split
    · split <;> simp [ih]
    · exact ih pl s

/-- C5: a blob shorter than the validity-bitmap offsets makes the decode
entry point fail with the truncation error and leave the state untouched
(no partial record is emitted); and a validity-flag byte other than
exactly 1 behaves as 0 — normalizing every flag with "1 iff exactly 1"
does not change the decode at all. -/
theorem claim5_truncation_and_falsy_flags :
    (∀ (payload : Bytes) (s : AuthState), payload.length < 914 →
      decode_uas payload s = (.error .truncated, s)) ∧
    (∀ (payload : Bytes) (vb : ODIDValidBlocks) (s : AuthState),
      parse_payload payload (normFlags vb) s = parse_payload payload vb s) := by
  constructor
  · intro payload s h
    unfold decode_uas
    rw [decode_valid_blocks_short payload _ h]
  · intro payload vb s
    simp only [parse_payload, normFlags, normFlag_eq_one, authLoop_norm]

set_option maxRecDepth 8192 in
/-- Witness for C5: a 900-byte blob fails with the truncation error, and
a Location flag byte of 2 decodes exactly as a flag byte of 0. -/
theorem claim5_truncation_and_falsy_flags_witness :
    decode_uas (List.replicate 900 0) AuthState.unset =
      (.error .truncated, AuthState.unset) ∧
    parse_payload (List.replicate 914 0)
        (normFlags ⟨0, 0, 2, 0, 0, 0, List.replicate 16 0⟩) AuthState.unset =
      parse_payload (List.replicate 914 0)
        ⟨0, 0, 2, 0, 0, 0, List.replicate 16 0⟩ AuthState.unset :=
  ⟨claim5_truncation_and_falsy_flags.1 (List.replicate 900 0) AuthState.unset
      (by simp),
   claim5_truncation_and_falsy_flags.2 (List.replicate 914 0)
      ⟨0, 0, 2, 0, 0, 0, List.replicate 16 0⟩ AuthState.unset⟩

/-- With at least 914 bytes, `decode_valid_blocks` on a fresh flags
object succeeds; the sixteen-entry `AuthValid` list receives bytes
895–908 in entries 0–13, while entries 14 and 15 stay 0 (their
assignments are commented out in the source). -/
theorem decode_valid_blocks_ok (payload : Bytes) (h : 914 ≤ payload.length) :
    decode_valid_blocks payload ODIDValidBlocks.init =
      .ok ⟨payload.getD 892 0, payload.getD 893 0, payload.getD 894 0,
           payload.getD 911 0, payload.getD 912 0, payload.getD 913 0,
           [payload.getD 895 0, payload.getD 896 0, payload.getD 897 0,
            payload.getD 898 0, payload.getD 899 0, payload.getD 900 0,
            payload.getD 901 0, payload.getD 902 0, payload.getD 903 0,
            payload.getD 904 0, payload.getD 905 0, payload.getD 906 0,
            payload.getD 907 0, payload.getD 908 0, 0, 0]⟩ := by
  unfold decode_valid_blocks
  simp only [pyIndex, bind]
  rw [dif_pos (show 892 < payload.length by omega)]
  simp only [Except.bind]
  rw [dif_pos (show 893 < payload.length by omega)]
  simp only [Except.bind]
  rw [dif_pos (show 894 < payload.length by omega)]
  simp only [Except.bind]
  rw [dif_pos (show 895 < payload.length by omega)]
  simp only [Except.bind]
  rw [dif_pos (show 896 < payload.length by omega)]
  simp only [Except.bind]
  rw [dif_pos (show 897 < payload.length by omega)]
  simp only [Except.bind]
  rw [dif_pos (show 898 < payload.length by omega)]
  simp only [Except.bind]
  rw [dif_pos (show 899 < payload.length by omega)]
  simp only [Except.bind]
  rw [dif_pos (show 900 < payload.length by omega)]
  simp only [Except.bind]
  rw [dif_pos (show 901 < payload.length by omega)]
  simp only [Except.bind]
  rw [dif_pos (show 902 < payload.length by omega)]
  simp only [Except.bind]
  rw [dif_pos (show 903 < payload.length by omega)]
  simp only [Except.bind]
  rw [dif_pos (show 904 < payload.length by omega)]
  simp only [Except.bind]
  rw [dif_pos (show 905 < payload.length by omega)]
  simp only [Except.bind]
  rw [dif_pos (show 906 < payload.length by omega)]
  simp only [Except.bind]
  rw [dif_pos (show 907 < payload.length by omega)]
  simp only [Except.bind]
  rw [dif_pos (show 908 < payload.length by omega)]
  simp only [Except.bind]
  rw [dif_pos (show 911 < payload.length by omega)]
  simp only [Except.bind]
  rw [dif_pos (show 912 < payload.length by omega)]
  simp only [Except.bind]
  rw [dif_pos (show 913 < payload.length by omega)]
  simp only [Except.bind]
  simp only [ODIDValidBlocks.init, List.replicate, List.set]
  simp (disch := omega) [List.getD_eq_getElem, List.get_eq_getElem, pure, Except.pure]

/-- Pages whose flag is not exactly 1 are all skipped. -/
theorem authLoop_skip (payload : Bytes) (av : List Nat) :
    ∀ (L : List Nat) (pl : Dict) (s : AuthState),
      (∀ q ∈ L, av.getD q 0 ≠ 1) → authLoop payload av L pl s = (.ok pl, s) := by
  intro L
  induction L with
  | nil => intro pl s _; rfl
  | cons x rest ih =>
    intro pl s hq
    simp only [authLoop]
    rw [if_neg (hq x (List.mem_cons_self x rest))]
    exact ih pl s (fun q hqr => hq q (List.mem_cons_of_mem x hqr))

/-- If the loop succeeds and `p` is an enabled page after which no page
is enabled, the final dict is the accumulated dict merged with page
`p`'s decode (so page `p`'s fields win in the final record). -/
theorem authLoop_last (payload : Bytes) (av : List Nat) :
    ∀ (L1 : List Nat) (p : Nat) (L2 : List Nat) (pl : Dict) (s : AuthState)
      (d : Dict) (s' : AuthState),
      (∀ q ∈ L2, av.getD q 0 ≠ 1) → av.getD p 0 = 1 →
      authLoop payload av (L1 ++ p :: L2) pl s = (.ok d, s') →
      ∃ (sp : AuthState) (dp pl1 : Dict),
        parse_AuthPage payload p sp = (.ok dp, s') ∧ d = dmerge pl1 dp := by
  intro L1
  induction L1 with
  | nil =>
    intro p L2 pl s d s' hL2 hp hrun
    simp only [List.nil_append, authLoop] at hrun
    rw [if_pos hp] at hrun
    cases hpa : parse_AuthPage payload p s with
    | mk r sp1 =>
      rw [hpa] at hrun
      cases r with
      | error e => simp at hrun
      | ok dp =>
        simp only at hrun
        rw [authLoop_skip payload av L2 (dmerge pl dp) sp1 hL2] at hrun
        cases hrun
        exact ⟨s, dp, pl, by rw [hpa], rfl⟩
  | cons x rest ih =>
    intro p L2 pl s d s' hL2 hp hrun
    simp only [List.cons_append, authLoop] at hrun
    split at hrun
    · cases hpa : parse_AuthPage payload x s with
      | mk r s1 =>
        rw [hpa] at hrun
        cases r with
        | error e => simp at hrun
        | ok d0 =>
          simp only at hrun
          exact ih p L2 (dmerge pl d0) s1 d s' hL2 hp hrun
    · exact ih p L2 pl s d s' hL2 hp hrun

theorem range16_split (p : Nat) (hp : p ≤ 15) :
    List.range 16 = List.range p ++ p :: List.range' (p + 1) (15 - p) := by
  rw [List.range_eq_range']
  rw [show (16:Nat) = (16 - p) + p by omega]
  rw [← List.range'_append_1 0 p (16 - p)]
  rw [show (16 - p) = (15 - p) + 1 by omega]
  rw [List.range'_succ]
  simp [List.range_eq_range']

/-- C4 (amended): the validity bitmap read by `decode_valid_blocks`
contains only fourteen authentication-page flags, read from bytes
895–908 for pages 0–13; the bytes for pages 14 and 15 (909, 910) are
never read, and with the fresh flags object those two entries stay 0, so
pages 14 and 15 are never decoded from the blob.  For an enabled page
`p` after which no page is enabled, a successful `parse_payload` merges
page `p`'s decoded fields into the record last, so they appear in the
merged record. -/
theorem claim4_fourteen_auth_flags :
    ∀ (payload : Bytes) (p : Nat) (s : AuthState), 914 ≤ payload.length →
      ∃ vb, decode_valid_blocks payload ODIDValidBlocks.init = .ok vb ∧
        (p ≤ 13 → vb.AuthValid.getD p 0 = payload.getD (895 + p) 0) ∧
        vb.AuthValid.getD 14 0 = 0 ∧ vb.AuthValid.getD 15 0 = 0 ∧
        (∀ (d : Dict) (s' : AuthState), p ≤ 15 →
          vb.AuthValid.getD p 0 = 1 →
          (∀ q, p < q → q ≤ 15 → vb.AuthValid.getD q 0 ≠ 1) →
          parse_payload payload vb s = (.ok d, s') →
          ∃ (sp : AuthState) (dp : Dict),
            parse_AuthPage payload p sp = (.ok dp, s') ∧
            ∀ k v, dp.lookup k = some v → d.lookup k = some v) := by
  intro payload p s hlen
  refine ⟨_, decode_valid_blocks_ok payload hlen, ?_, rfl, rfl, ?_⟩
  · intro hp
    interval_cases p <;> rfl
  · intro d s' hp15 hflag hafter hrun
    simp only [parse_payload] at hrun
    split at hrun
    · simp at hrun
    · rw [range16_split p hp15] at hrun
      obtain ⟨sp, dp, pl1, hpa, hd⟩ :=
        authLoop_last payload _ (List.range p) p (List.range' (p + 1) (15 - p))
          _ s d s'
          (by
            intro q hq
            rw [List.mem_range'_1] at hq
            exact hafter q (by omega) (by omega))
          hflag hrun
      refine ⟨sp, dp, hpa, ?_⟩
      intro k v hkv
      rw [hd, dmerge_lookup, hkv]

set_option maxRecDepth 8192 in
/-- Counterexample to C4 as stated: a 914-byte blob whose byte 909 (the
bitmap position of authentication page 14) equals 1 decodes to an empty
merged record — the page-14 flag byte is never read and no page-14
fields appear. -/
theorem claim4_counterexample :
    pyIndex ((List.replicate 914 0).set 909 1) 909 = .ok 1 ∧
    (decode_uas ((List.replicate 914 0).set 909 1) AuthState.unset).1 = .ok [] ∧
    List.lookup "DataPage" ([] : Dict) = Option.none :=
  ⟨rfl, rfl, rfl⟩

set_option maxRecDepth 8192 in
/-- Witness for C4 (amended) on a concrete blob enabling only
authentication page 0: the flag is read from byte 895 and page 0's
fields reach the merged record. -/
theorem claim4_fourteen_auth_flags_witness :
    ((decode_valid_blocks ((List.replicate 914 0).set 895 1)
        ODIDValidBlocks.init).map (fun vb => vb.AuthValid.getD 0 0) = .ok 1) ∧
    ((parse_payload ((List.replicate 914 0).set 895 1)
        ⟨0, 0, 0, 0, 0, 0, [1, 0, 0, 0, 0, 0, 0, 0, 0, 0, 0, 0, 0, 0, 0, 0]⟩
        AuthState.unset).1.map
          (fun d => (d.lookup "DataPage").isSome) = .ok true) := by
  obtain ⟨vb, hvb, hread, h14, h15, hgate⟩ :=
    claim4_fourteen_auth_flags ((List.replicate 914 0).set 895 1) 0
      AuthState.unset (by simp)
  have hvb2 : (Except.ok vb : Except PyErr ODIDValidBlocks) =
      Except.ok (⟨0, 0, 0, 0, 0, 0,
        [1, 0, 0, 0, 0, 0, 0, 0, 0, 0, 0, 0, 0, 0, 0, 0]⟩ : ODIDValidBlocks) := by
    rw [← hvb]
    rfl
  have hvb3 : vb = ⟨0, 0, 0, 0, 0, 0,
      [1, 0, 0, 0, 0, 0, 0, 0, 0, 0, 0, 0, 0, 0, 0, 0]⟩ := by
    injection hvb2
  subst hvb3
  refine ⟨by rw [hvb]; rfl, ?_⟩
  obtain ⟨sp, dp, hpa, hsub⟩ := hgate
    [("DataPage", PyVal.int 0), ("AuthType", PyVal.int 0),
     ("LastPageIndex", PyVal.int 0), ("Length", PyVal.int 0),
     ("AuthData", PyVal.str (bytesHex
       (pySlice ((List.replicate 914 0).set 895 1) 152 169)))]
    ⟨some 0, some 0⟩ (by omega) rfl
    (by intro q h1 h2; interval_cases q <;> simp) rfl
  have hind := parse_AuthPage0_result_indep ((List.replicate 914 0).set 895 1)
    sp AuthState.unset
  have h1 : (Except.ok dp : Except PyErr Dict) =
      (parse_AuthPage ((List.replicate 914 0).set 895 1) 0 AuthState.unset).1 := by
    rw [← hind, hpa]
  have h2 : (parse_AuthPage ((List.replicate 914 0).set 895 1) 0
      AuthState.unset).1 =
      .ok [("DataPage", PyVal.int 0), ("AuthType", PyVal.int 0),
           ("LastPageIndex", PyVal.int 0), ("Length", PyVal.int 0),
           ("AuthData", PyVal.str (bytesHex
             (pySlice ((List.replicate 914 0).set 895 1) 152 169)))] := rfl
  have hdp : dp =
      [("DataPage", PyVal.int 0), ("AuthType", PyVal.int 0),
       ("LastPageIndex", PyVal.int 0), ("Length", PyVal.int 0),
       ("AuthData", PyVal.str (bytesHex
         (pySlice ((List.replicate 914 0).set 895 1) 152 169)))] := by
    injection h1.trans h2
  subst hdp
  have hlook := hsub "DataPage" (PyVal.int 0) rfl
  have hrun2 : (parse_payload ((List.replicate 914 0).set 895 1)
      ⟨0, 0, 0, 0, 0, 0, [1, 0, 0, 0, 0, 0, 0, 0, 0, 0, 0, 0, 0, 0, 0, 0]⟩
      AuthState.unset).1 =
      .ok [("DataPage", PyVal.int 0), ("AuthType", PyVal.int 0),
           ("LastPageIndex", PyVal.int 0), ("Length", PyVal.int 0),
           ("AuthData", PyVal.str (bytesHex
             (pySlice ((List.replicate 914 0).set 895 1) 152 169)))] := rfl
  rw [hrun2]
  simp [Except.map, hlook]

/-- C10: with `IDType` outside {1, 2}, BasicID slot 0 stores the 21
id bytes' hex string wrapped in a one-element tuple (the source has a
trailing comma), while slot 1 stores the plain hex string; decoded
through `parse_payload` with only the respective flag set, the merged
record's `BasicID` value is differently typed for the two slots. -/
theorem claim10_basicid_slot_asymmetry :
    ∀ (payload : Bytes) (s : AuthState) (t0 t1 : Nat), 914 ≤ payload.length →
      unpack_u 4 (pySlice payload 4 8) = .ok t0 → t0 ≠ 1 → t0 ≠ 2 →
      unpack_u 4 (pySlice payload 36 40) = .ok t1 → t1 ≠ 1 → t1 ≠ 2 →
      ((parse_payload payload ⟨1, 0, 0, 0, 0, 0, List.replicate 16 0⟩ s).1.map
          (fun d => d.lookup "BasicID") =
        .ok (some (.tupStr (bytesHex (pySlice payload 8 29)))) ∧
       (parse_payload payload ⟨0, 1, 0, 0, 0, 0, List.replicate 16 0⟩ s).1.map
          (fun d => d.lookup "BasicID") =
        .ok (some (.str (bytesHex (pySlice payload 40 61))))) := by
  intro payload s t0 t1 hlen h0 hn01 hn02 h1 hn11 hn12
  have hu0 := unpack_u_okb payload 4 0 4 (by omega) (by omega)
  have hu4 := unpack_u_okb payload 4 4 8 (by omega) (by omega)
  have hu32 := unpack_u_okb payload 4 32 36 (by omega) (by omega)
  have hu36 := unpack_u_okb payload 4 36 40 (by omega) (by omega)
  have ht0 : leNat (pySlice payload 4 8) = t0 := by
    rw [h0] at hu4
    injection hu4 with h
    exact h.symm
  have ht1 : leNat (pySlice payload 36 40) = t1 := by
    rw [h1] at hu36
    injection hu36 with h
    exact h.symm
  have hb0 : parse_basicID0 payload =
      .ok [("UAType", .int (leNat (pySlice payload 0 4))), ("IDType", .int t0),
           ("BasicID", .tupStr (bytesHex (pySlice payload 8 29)))] := by
    simp only [parse_basicID0, hu0, hu4, bind, Except.bind, ht0]
    rw [if_neg (by omega)]
    rfl
  have hb1 : parse_basicID1 payload =
      .ok [("UAType", .int (leNat (pySlice payload 32 36))), ("IDType", .int t1),
           ("BasicID", .str (bytesHex (pySlice payload 40 61)))] := by
    simp only [parse_basicID1, hu32, hu36, bind, Except.bind, ht1]
    rw [if_neg (by omega)]
    rfl
  constructor
  · have honly : parse_payload payload ⟨1, 0, 0, 0, 0, 0, List.replicate 16 0⟩ s =
        (.ok [("UAType", .int (leNat (pySlice payload 0 4))), ("IDType", .int t0),
              ("BasicID", .tupStr (bytesHex (pySlice payload 8 29)))], s) := by
      simp only [parse_payload, hb0, bind, Except.bind, pure, Except.pure]
      norm_num
      rw [dmerge_nil]
      exact authLoop_skip payload _ (List.range 16) _ s (by decide)
    rw [congrArg Prod.fst honly]
    rfl
  · have honly : parse_payload payload ⟨0, 1, 0, 0, 0, 0, List.replicate 16 0⟩ s =
        (.ok [("UAType", .int (leNat (pySlice payload 32 36))), ("IDType", .int t1),
              ("BasicID", .str (bytesHex (pySlice payload 40 61)))], s) := by
      simp only [parse_payload, hb1, bind, Except.bind, pure, Except.pure]
      norm_num
      rw [dmerge_nil]
      exact authLoop_skip payload _ (List.range 16) _ s (by decide)
    rw [congrArg Prod.fst honly]
    rfl

set_option maxRecDepth 8192 in
/-- Witness for C10 on an all-zero 914-byte blob (`IDType = 0` in both
slots): slot 0 yields a tuple-wrapped hex string, slot 1 a plain one. -/
theorem claim10_basicid_slot_asymmetry_witness :
    ((parse_payload (List.replicate 914 0)
        ⟨1, 0, 0, 0, 0, 0, List.replicate 16 0⟩ AuthState.unset).1.map
        (fun d => d.lookup "BasicID") =
      .ok (some (.tupStr (bytesHex (pySlice (List.replicate 914 0) 8 29)))) ∧
     (parse_payload (List.replicate 914 0)
        ⟨0, 1, 0, 0, 0, 0, List.replicate 16 0⟩ AuthState.unset).1.map
        (fun d => d.lookup "BasicID") =
      .ok (some (.str (bytesHex (pySlice (List.replicate 914 0) 40 61))))) :=
  claim10_basicid_slot_asymmetry (List.replicate 914 0) AuthState.unset 0 0
    (by simp) rfl (by decide) (by decide) rfl (by decide) (by decide)

/-- C2: for a blob of at least 914 bytes with the Location flag byte
equal to 1, `parse_Location` replaces a raw f64 latitude that is exactly
0 or outside [-90, 90] with NaN and keeps an in-range nonzero latitude
unchanged; it replaces a raw f32 direction outside [0, 360] with NaN and
keeps an in-range direction unchanged; no error is raised and every
other Location field is still produced; and `decode_valid_blocks` reads
that Location flag as 1. -/
theorem claim2_location_sentinels :
    ∀ (payload : Bytes), 914 ≤ payload.length → payload.getD 894 0 = 1 →
      (∀ q : ℚ, unpack_f64 (pySlice payload 80 88) = .ok (.finite q) →
        ((q = 0 ∨ 90 < q ∨ q < -90 →
          (parse_Location payload).map (fun d => d.lookup "Latitude") =
            .ok (some (.float .nan))) ∧
         (q ≠ 0 → -90 ≤ q → q ≤ 90 →
          (parse_Location payload).map (fun d => d.lookup "Latitude") =
            .ok (some (.float (.finite q)))))) ∧
      (∀ q : ℚ, unpack_f32 (pySlice payload 68 72) = .ok (.finite q) →
        ((360 < q ∨ q < 0 →
          (parse_Location payload).map (fun d => d.lookup "Direction") =
            .ok (some (.float .nan))) ∧
         (0 ≤ q → q ≤ 360 →
          (parse_Location payload).map (fun d => d.lookup "Direction") =
            .ok (some (.float (.finite q)))))) ∧
      ((parse_Location payload).map (fun d =>
          (["Status", "Direction", "SpeedHorizontal", "SpeedVertical",
            "Latitude", "Longitude", "AltitudeBaro", "AltitudeGeo",
            "HeightType", "Height", "HorizAccuracy", "VertAccuracy",
            "BaroAccuracy", "SpeedAccuracy", "TSAccuracy"].all
            (fun k => (d.lookup k).isSome))) = .ok true) ∧
      (decode_valid_blocks payload ODIDValidBlocks.init).map
        (fun vb => vb.LocationValid) = .ok 1 := by
  intro payload hlen hflag
  have hU64 := unpack_u_okb payload 4 64 68 (by omega) (by omega)
  have hF68 := unpack_f32_okb payload 68 72 (by omega) (by omega)
  have hF72 := unpack_f32_okb payload 72 76 (by omega) (by omega)
  have hF76 := unpack_f32_okb payload 76 80 (by omega) (by omega)
  have hF80 := unpack_f64_okb payload 80 88 (by omega) (by omega)
  have hF88 := unpack_f64_okb payload 88 96 (by omega) (by omega)
  have hF96 := unpack_f32_okb payload 96 100 (by omega) (by omega)
  have hF100 := unpack_f32_okb payload 100 104 (by omega) (by omega)
  have hU104 := unpack_u_okb payload 4 104 108 (by omega) (by omega)
  have hF108 := unpack_f32_okb payload 108 112 (by omega) (by omega)
  have hU112 := unpack_u_okb payload 4 112 116 (by omega) (by omega)
  have hU116 := unpack_u_okb payload 4 116 120 (by omega) (by omega)
  have hU120 := unpack_u_okb payload 4 120 124 (by omega) (by omega)
  have hU124 := unpack_u_okb payload 4 124 128 (by omega) (by omega)
  have hU128 := unpack_u_okb payload 4 128 132 (by omega) (by omega)
  have hF132 := unpack_f32_okb payload 132 136 (by omega) (by omega)
  refine ⟨?_, ?_, ?_, ?_⟩
  · intro q hq
    rw [hF80] at hq
    injection hq with hqe
    constructor
    · intro hcond
      have hc : ((EFloat.finite q).eqq 0 || (EFloat.finite q).gtq 90 ||
          (EFloat.finite q).ltq (-90)) = true := by
        simp only [EFloat.eqq, EFloat.gtq, EFloat.ltq, Bool.or_eq_true,
          decide_eq_true_eq]
        rcases hcond with h | h | h
        · exact Or.inl (Or.inl h)
        · exact Or.inl (Or.inr h)
        · exact Or.inr h
      simp only [parse_Location, hU64, hF68, hF72, hF76, hF80, hF88, hF96,
        hF100, hU104, hF108, hU112, hU116, hU120, hU124, hU128, hF132,
        bind, Except.bind, pure, Except.pure, hqe, hc,
        eq_self_iff_true, if_true, Bool.false_eq_true, if_false]
      cases decodeIEEE 23 8 (leNat (pySlice payload 132 136)) with
      | nan => rfl
      | inf => rfl
      | ninf => rfl
      | finite qt =>
        cases hg : ((EFloat.finite qt).gtq 0 && (EFloat.finite qt).leq 3600) <;>
          simp only [hg, Bool.false_eq_true, if_false, eq_self_iff_true,
            if_true] <;> rfl
    · intro h0 hge hle
      have hc : ((EFloat.finite q).eqq 0 || (EFloat.finite q).gtq 90 ||
          (EFloat.finite q).ltq (-90)) = false := by
        simp only [EFloat.eqq, EFloat.gtq, EFloat.ltq, Bool.or_eq_false_iff,
          decide_eq_false_iff_not]
        exact ⟨⟨h0, not_lt.mpr hle⟩, not_lt.mpr hge⟩
      simp only [parse_Location, hU64, hF68, hF72, hF76, hF80, hF88, hF96,
        hF100, hU104, hF108, hU112, hU116, hU120, hU124, hU128, hF132,
        bind, Except.bind, pure, Except.pure, hqe, hc,
        eq_self_iff_true, if_true, Bool.false_eq_true, if_false]
      cases decodeIEEE 23 8 (leNat (pySlice payload 132 136)) with
      | nan => rfl
      | inf => rfl
      | ninf => rfl
      | finite qt =>
        cases hg : ((EFloat.finite qt).gtq 0 && (EFloat.finite qt).leq 3600) <;>
          simp only [hg, Bool.false_eq_true, if_false, eq_self_iff_true,
            if_true] <;> rfl
  · intro q hq
    rw [hF68] at hq
    injection hq with hqe
    constructor
    · intro hcond
      have hc : ((EFloat.finite q).gtq 360 || (EFloat.finite q).ltq 0) = true := by
        simp only [EFloat.gtq, EFloat.ltq, Bool.or_eq_true, decide_eq_true_eq]
        exact hcond
      simp only [parse_Location, hU64, hF68, hF72, hF76, hF80, hF88, hF96,
        hF100, hU104, hF108, hU112, hU116, hU120, hU124, hU128, hF132,
        bind, Except.bind, pure, Except.pure, hqe, hc,
        eq_self_iff_true, if_true, Bool.false_eq_true, if_false]
      cases decodeIEEE 23 8 (leNat (pySlice payload 132 136)) with
      | nan => rfl
      | inf => rfl
      | ninf => rfl
      | finite qt =>
        cases hg : ((EFloat.finite qt).gtq 0 && (EFloat.finite qt).leq 3600) <;>
          simp only [hg, Bool.false_eq_true, if_false, eq_self_iff_true,
            if_true] <;> rfl
    · intro hge hle
      have hc : ((EFloat.finite q).gtq 360 || (EFloat.finite q).ltq 0) = false := by
        simp only [EFloat.gtq, EFloat.ltq, Bool.or_eq_false_iff,
          decide_eq_false_iff_not]
        exact ⟨not_lt.mpr hle, not_lt.mpr hge⟩
      simp only [parse_Location, hU64, hF68, hF72, hF76, hF80, hF88, hF96,
        hF100, hU104, hF108, hU112, hU116, hU120, hU124, hU128, hF132,
        bind, Except.bind, pure, Except.pure, hqe, hc,
        eq_self_iff_true, if_true, Bool.false_eq_true, if_false]
      cases decodeIEEE 23 8 (leNat (pySlice payload 132 136)) with
      | nan => rfl
      | inf => rfl
      | ninf => rfl
      | finite qt =>
        cases hg : ((EFloat.finite qt).gtq 0 && (EFloat.finite qt).leq 3600) <;>
          simp only [hg, Bool.false_eq_true, if_false, eq_self_iff_true,
            if_true] <;> rfl
  · simp only [parse_Location, hU64, hF68, hF72, hF76, hF80, hF88, hF96,
      hF100, hU104, hF108, hU112, hU116, hU120, hU124, hU128, hF132,
      bind, Except.bind, pure, Except.pure]
    cases decodeIEEE 23 8 (leNat (pySlice payload 132 136)) with
    | nan => rfl
    | inf => rfl
    | ninf => rfl
    | finite qt =>
      cases hg : ((EFloat.finite qt).gtq 0 && (EFloat.finite qt).leq 3600) <;>
        simp only [hg, Bool.false_eq_true, if_false, eq_self_iff_true,
          if_true] <;> rfl
  · rw [decode_valid_blocks_ok payload hlen]
    simp only [Except.map]
    rw [hflag]

set_option maxRecDepth 100000 in
/-- Witness for C2: on an all-zero 914-byte blob with the Location flag
set, the raw latitude is exactly 0.0 and decodes to NaN while the whole
Location record is still produced; with the raw f64 bytes of 1.0 at the
latitude offset, the in-range value 1 is returned unchanged. -/
theorem claim2_location_sentinels_witness :
    ((parse_Location ((List.replicate 914 0).set 894 1)).map
        (fun d => d.lookup "Latitude") = .ok (some (.float .nan))) ∧
    ((parse_Location ((((List.replicate 914 0).set 894 1).set 86 240).set 87 63)).map
        (fun d => d.lookup "Latitude") = .ok (some (.float (.finite 1)))) ∧
    ((parse_Location ((List.replicate 914 0).set 894 1)).map (fun d =>
        (["Status", "Direction", "SpeedHorizontal", "SpeedVertical",
          "Latitude", "Longitude", "AltitudeBaro", "AltitudeGeo",
          "HeightType", "Height", "HorizAccuracy", "VertAccuracy",
          "BaroAccuracy", "SpeedAccuracy", "TSAccuracy"].all
          (fun k => (d.lookup k).isSome))) = .ok true) := by
  obtain ⟨hlat, hdir, hkeys, hflag⟩ :=
    claim2_location_sentinels ((List.replicate 914 0).set 894 1)
      (by simp) (by rfl)
  obtain ⟨hlat2, hdir2, hkeys2, hflag2⟩ :=
    claim2_location_sentinels ((((List.replicate 914 0).set 894 1).set 86 240).set 87 63)
      (by simp) (by rfl)
  have hdec0 : decodeIEEE 52 11 0 = .finite 0 := by
    unfold decodeIEEE
    norm_num
  have hdec1 : decodeIEEE 52 11 4607182418800017408 = .finite 1 := by
    unfold decodeIEEE
    norm_num
  have hs0 : pySlice ((List.replicate 914 0).set 894 1) 80 88 =
      [0, 0, 0, 0, 0, 0, 0, 0] := by rfl
  have hs1 : pySlice ((((List.replicate 914 0).set 894 1).set 86 240).set 87 63) 80 88 =
      [0, 0, 0, 0, 0, 0, 240, 63] := by rfl
  have hu0 : unpack_f64 (pySlice ((List.replicate 914 0).set 894 1) 80 88) =
      .ok (.finite 0) := by
    rw [hs0]
    unfold unpack_f64
    norm_num [leNat, hdec0]
  have hu1 : unpack_f64 (pySlice ((((List.replicate 914 0).set 894 1).set 86 240).set 87 63)
      80 88) = .ok (.finite 1) := by
    rw [hs1]
    unfold unpack_f64
    norm_num [leNat, hdec1]
  exact ⟨(hlat 0 hu0).1 (Or.inl rfl),
         (hlat2 1 hu1).2 (by norm_num) (by norm_num) (by norm_num),
         hkeys⟩

theorem process_payload_frames_none (s : List Char) (h : findBB s = Option.none) :
    process_payload_frames s = [s] := by
  rw [process_payload_frames.eq_def]
  split <;> simp_all

theorem process_payload_frames_some (s : List Char) (p : Nat)
    (h : findBB s = some p) :
    process_payload_frames s =
      s.take (p + 1) :: process_payload_frames (s.drop (p + 1)) := by
  rw [process_payload_frames.eq_def]
  split <;> simp_all

theorem frames_concat_bounded :
    ∀ (n : Nat) (s : List Char), s.length ≤ n →
      (process_payload_frames s).foldr (· ++ ·) [] = s := by
  intro n
  induction n with
  | zero =>
    intro s hs
    have : s = [] := List.eq_nil_of_length_eq_zero (by omega)
    subst this
    rw [process_payload_frames_none [] rfl]
    simp
  | succ n ih =>
    intro s hs
    cases h : findBB s with
    | none =>
      rw [process_payload_frames_none s h]
      simp
    | some p =>
      rw [process_payload_frames_some s p h]
      simp only [List.foldr_cons]
      rw [ih (s.drop (p + 1)) (by
        have := findBB_some_le s p h
        simp only [List.length_drop]
        omega)]
      exact List.take_append_drop (p + 1) s

/-- C8: the framing loop of `MQTTWorker.process_payload` splits the
buffer at each `\x7d\x7b` boundary into the complete object up to the
`\x7d` and the remainder from the following `\x7b`, emits the whole
remaining buffer when no boundary is left, loses no characters, and on
the concrete text `\x7b"a":1\x7d\x7b"b":2\x7d` yields exactly the two
objects `\x7b"a":1\x7d` then `\x7b"b":2\x7d` in that order. -/
theorem claim8_framer_concatenation :
    (∀ s : List Char, findBB s = Option.none → process_payload_frames s = [s]) ∧
    (∀ (s : List Char) (p : Nat), findBB s = some p →
      process_payload_frames s =
        s.take (p + 1) :: process_payload_frames (s.drop (p + 1))) ∧
    (∀ s : List Char, (process_payload_frames s).foldr (· ++ ·) [] = s) ∧
    process_payload_frames ("\x7b\"a\":1\x7d\x7b\"b\":2\x7d").data =
      [("\x7b\"a\":1\x7d").data, ("\x7b\"b\":2\x7d").data] := by
  refine ⟨process_payload_frames_none, process_payload_frames_some,
    fun s => frames_concat_bounded s.length s le_rfl, ?_⟩
  rw [process_payload_frames_some _ 6 (by decide)]
  rw [process_payload_frames_none _ (by decide)]
  decide

/-- Witness for C8: the split equation applied at the concrete
concatenated text, and the no-boundary equation at its tail. -/
theorem claim8_framer_concatenation_witness :
    process_payload_frames ("\x7b\"a\":1\x7d\x7b\"b\":2\x7d").data =
      ("\x7b\"a\":1\x7d\x7b\"b\":2\x7d").data.take 7 ::
        process_payload_frames (("\x7b\"a\":1\x7d\x7b\"b\":2\x7d").data.drop 7) ∧
    process_payload_frames (("\x7b\"b\":2\x7d").data) = [("\x7b\"b\":2\x7d").data] :=
  ⟨claim8_framer_concatenation.2.1 ("\x7b\"a\":1\x7d\x7b\"b\":2\x7d").data 6 (by decide),
   claim8_framer_concatenation.1 ("\x7b\"b\":2\x7d").data (by decide)⟩

theorem lookup_map_set_ne (c : PosCache) (k s' : String) (v : Dict)
    (hne : (s' == k) = false) :
    List.lookup s' (c.map (fun kv => if kv.1 = k then (k, v) else kv)) =
      List.lookup s' c := by
  induction c with
  | nil => rfl
  | cons hd tl ih =>
    simp only [List.map]
    by_cases hk : hd.1 = k
    · rw [if_pos hk]
      simp only [List.lookup, hk, hne]
      exact ih
    · rw [if_neg hk]
      simp only [List.lookup]
      cases h : s' == hd.1 <;> simp [ih]

theorem lookup_map_set_self (c : PosCache) (k : String) (v : Dict)
    (hsome : (List.lookup k c).isSome = true) :
    List.lookup k (c.map (fun kv => if kv.1 = k then (k, v) else kv)) = some v := by
  induction c with
  | nil => simp [List.lookup] at hsome
  | cons hd tl ih =>
    simp only [List.map]
    by_cases hk : hd.1 = k
    · rw [if_pos hk]
      simp [List.lookup]
    · rw [if_neg hk]
      have hne : (k == hd.1) = false := by
        simp only [beq_eq_false_iff_ne, ne_eq]
        exact fun he => hk he.symm
      simp only [List.lookup, hne]
      apply ih
      simpa [List.lookup, hne] using hsome

theorem lookup_cacheSet_self (c : PosCache) (k : String) (v : Dict) :
    List.lookup k (cacheSet c k v) = some v := by
  unfold cacheSet
  split
  · exact lookup_map_set_self c k v (by assumption)
  · rw [lookup_append]
    rename_i hnone
    have : List.lookup k c = Option.none := by
      cases h : List.lookup k c
      · rfl
      · rw [h] at hnone
        simp at hnone
    rw [this]
    simp [List.lookup]

theorem lookup_cacheSet_ne (c : PosCache) (k s' : String) (v : Dict)
    (hne : s' ≠ k) :
    List.lookup s' (cacheSet c k v) = List.lookup s' c := by
  have hb : (s' == k) = false := by
    simp only [beq_eq_false_iff_ne, ne_eq]
    exact hne
  unfold cacheSet
  split
  · exact lookup_map_set_ne c k s' v hb
  · rw [lookup_append]
    cases h : List.lookup s' c
    · simp [List.lookup, hb]
    · simp

/-- C7: an accepted position message for sensor S (the third topic
segment) replaces S's cache entry with exactly the record built from
the message alone — no field of any prior entry survives — and leaves
every other sensor's entry unchanged. -/
theorem claim7_cache_full_replace :
    ∀ (cache : PosCache) (message : Dict) (t : String),
      message.lookup "topic" = some (.str t) →
      ∀ h : 2 < (pySplitStr t (Char.ofNat 47)).length,
        handle_sensor_position cache message =
          .ok (cacheSet cache ((pySplitStr t (Char.ofNat 47)).get ⟨2, h⟩)
            (posRecord message ((pySplitStr t (Char.ofNat 47)).get ⟨2, h⟩))) ∧
        List.lookup ((pySplitStr t (Char.ofNat 47)).get ⟨2, h⟩)
          (cacheSet cache ((pySplitStr t (Char.ofNat 47)).get ⟨2, h⟩)
            (posRecord message ((pySplitStr t (Char.ofNat 47)).get ⟨2, h⟩))) =
          some (posRecord message ((pySplitStr t (Char.ofNat 47)).get ⟨2, h⟩)) ∧
        ∀ s', s' ≠ (pySplitStr t (Char.ofNat 47)).get ⟨2, h⟩ →
          List.lookup s' (cacheSet cache ((pySplitStr t (Char.ofNat 47)).get ⟨2, h⟩)
            (posRecord message ((pySplitStr t (Char.ofNat 47)).get ⟨2, h⟩))) =
            List.lookup s' cache := by
  intro cache message t ht h
  refine ⟨?_, lookup_cacheSet_self cache _ _,
    fun s' hs' => lookup_cacheSet_ne cache _ s' _ hs'⟩
  simp only [handle_sensor_position, pyGet, ht, Option.getD_some]
  rw [dif_pos h]

/-- Witness for C7: a concrete position message on topic `a/b/S1`
replaces sensor S1's entry in a one-entry cache and leaves sensor S2's
lookup unchanged. -/
theorem claim7_cache_full_replace_witness :
    handle_sensor_position [("S1", [("lat", PyVal.int 5)])]
        [("topic", .str "a/b/S1"), ("lat", .int 7)] =
      .ok (cacheSet [("S1", [("lat", PyVal.int 5)])] "S1"
        (posRecord [("topic", .str "a/b/S1"), ("lat", .int 7)] "S1")) ∧
    List.lookup "S1" (cacheSet [("S1", [("lat", PyVal.int 5)])] "S1"
        (posRecord [("topic", .str "a/b/S1"), ("lat", .int 7)] "S1")) =
      some (posRecord [("topic", .str "a/b/S1"), ("lat", .int 7)] "S1") ∧
    List.lookup "S2" (cacheSet [("S1", [("lat", PyVal.int 5)])] "S1"
        (posRecord [("topic", .str "a/b/S1"), ("lat", .int 7)] "S1")) =
      List.lookup "S2" [("S1", [("lat", PyVal.int 5)])] := by
  obtain ⟨h1, h2, h3⟩ := claim7_cache_full_replace
    [("S1", [("lat", PyVal.int 5)])] [("topic", .str "a/b/S1"), ("lat", .int 7)]
    "a/b/S1" rfl (by decide)
  exact ⟨h1, h2, h3 "S2" (by decide)⟩

/-- C6: the UAS-position mapping returns no event when the `Latitude` or
`Longitude` key is absent, and the operator-position mapping returns no
event when `OperatorLatitude` or `OperatorLongitude` is absent; when the
required keys are present with non-`None` values (NaN included), each
mapping returns a CoT event — the only failure sources on well-formed
input are a non-integer `COT_STALE` string or a non-dict `data`/`extra`
value, excluded by hypothesis. -/
theorem claim6_translator_no_event :
    ∀ (data : Dict) (config : Config),
      ((data.lookup "Latitude" = Option.none ∨
        data.lookup "Longitude" = Option.none) →
        rid_uas_to_cot_xml data config = .ok Option.none) ∧
      ((data.lookup "OperatorLatitude" = Option.none ∨
        data.lookup "OperatorLongitude" = Option.none) →
        rid_op_to_cot_xml data config = .ok Option.none) ∧
      (∀ v w, data.lookup "Latitude" = some v → isNoneV v = false →
        data.lookup "Longitude" = some w → isNoneV w = false →
        ∀ n, pyParseInt (cfgGet config "COT_STALE" DEFAULT_COT_STALE) = .ok n →
        ∀ sd, pyGetDict data "data" = .ok sd →
        ∀ ed, pyGetDict data "extra" = .ok ed →
        ∃ ev, rid_uas_to_cot_xml data config = .ok (some ev)) ∧
      (∀ v w, data.lookup "OperatorLatitude" = some v → isNoneV v = false →
        data.lookup "OperatorLongitude" = some w → isNoneV w = false →
        ∀ n, pyParseInt (cfgGet config "COT_STALE" DEFAULT_COT_STALE) = .ok n →
        ∃ ev, rid_op_to_cot_xml data config = .ok (some ev)) := by
  intro data config
  refine ⟨?_, ?_, ?_, ?_⟩
  · intro h
    rcases h with h | h <;>
      simp [rid_uas_to_cot_xml, pyGet, h, isNoneV] <;> rfl
  · intro h
    rcases h with h | h <;>
      simp [rid_op_to_cot_xml, pyGet, h, isNoneV] <;> rfl
  · intro v w hv hnv hw hnw n hn sd hsd ed hed
    simp only [rid_uas_to_cot_xml, pyGet, hv, hw, Option.getD_some, hnv, hnw,
      Bool.or_self, Bool.false_eq_true, if_false, hsd, hed, hn,
      bind, Except.bind, pure, Except.pure]
    exact ⟨_, rfl⟩
  · intro v w hv hnv hw hnw n hn
    simp only [rid_op_to_cot_xml, pyGet, hv, hw, Option.getD_some, hnv, hnw,
      Bool.or_self, Bool.false_eq_true, if_false, hn,
      bind, Except.bind, pure, Except.pure]
    exact ⟨_, rfl⟩

/-- Witness for C6: an empty record yields no UAS or operator event; a
record with NaN coordinates present yields both events under the empty
configuration. -/
theorem claim6_translator_no_event_witness :
    rid_uas_to_cot_xml [] [] = .ok Option.none ∧
    rid_op_to_cot_xml [] [] = .ok Option.none ∧
    (∃ ev, rid_uas_to_cot_xml
      [("Latitude", .float .nan), ("Longitude", .float .nan)] [] = .ok (some ev)) ∧
    (∃ ev, rid_op_to_cot_xml
      [("OperatorLatitude", .float .nan), ("OperatorLongitude", .float .nan)] [] =
        .ok (some ev)) := by
  refine ⟨(claim6_translator_no_event [] []).1 (Or.inl rfl),
    (claim6_translator_no_event [] []).2.1 (Or.inl rfl), ?_, ?_⟩
  · exact (claim6_translator_no_event
      [("Latitude", .float .nan), ("Longitude", .float .nan)] []).2.2.1
      (.float .nan) (.float .nan) rfl rfl rfl rfl 120 (by rfl) [] rfl [] rfl
  · exact (claim6_translator_no_event
      [("OperatorLatitude", .float .nan), ("OperatorLongitude", .float .nan)] []).2.2.2
      (.float .nan) (.float .nan) rfl rfl rfl rfl 120 (by rfl)
